import Mathlib

/-!
Shallow embedding of the F1-Simulator "what-if" simulation core
(`src/core/physics.py`, `src/core/weather.py`, `src/core/sim_engine.py`,
`src/data/loader.py`).  Python floats are modelled as `ℚ`, Python dicts as
key-unique association lists (`List (String × α)`) preserving insertion
order, and Python `int(x)` truncation as `pyInt`.
-/

namespace F1Sim

/-- Python `int(x)` truncates toward zero. -/
def pyInt (q : ℚ) : ℤ := if 0 ≤ q then ⌊q⌋ else ⌈q⌉

/-- Dictionary lookup: `d[k]` / `d.get(k)` on an insertion-ordered dict
modelled as an association list with unique keys. -/
def alookup {α : Type} (l : List (String × α)) (k : String) : Option α :=
  (l.find? (fun p => p.1 == k)).map (fun p => p.2)

/-- `d.get(k, default)`. -/
def alookupD {α : Type} (l : List (String × α)) (k : String) (d : α) : α :=
  (alookup l k).getD d

/-- Python `str.upper()` (ASCII, as used on compound names). -/
def pyUpper (s : String) : String := ⟨s.data.map Char.toUpper⟩

/-- A stable insertion sort.  Python's `list.sort` is stable; for a total
preorder `le` every stable sort computes the same list, so this is the
extensional meaning of `standings.sort(key=...)`. -/
def insSorted {α : Type} (le : α → α → Bool) (x : α) : List α → List α
  | [] => [x]
  | y :: ys => if le x y then x :: y :: ys else y :: insSorted le x ys

def stableSort {α : Type} (le : α → α → Bool) : List α → List α
  | [] => []
  | x :: xs => insSorted le x (stableSort le xs)

/-! ### `src/data/loader.py` -/

/-- `LapData` dataclass (the `telemetry` DataFrame field is an external
collaborator type never read by the simulation core and is omitted). -/
structure LapData where
  lap_number : ℕ
  lap_time_seconds : ℚ
  compound : String
  tire_life : ℕ
  is_pit_out : Bool
  is_pit_in : Bool
  position : ℕ
deriving DecidableEq

/-- `DriverRaceData` dataclass. -/
structure DriverRaceData where
  driver_code : String
  driver_name : String
  team : String
  team_color : ℕ × ℕ × ℕ
  laps : List LapData
  final_position : ℕ
  total_laps : ℕ
deriving DecidableEq

/-! ### `src/core/physics.py` -/

/-- `PhysicsModel.TIRE_WEAR_RATES.get(c, 0.025)`. -/
def TIRE_WEAR_RATES (c : String) : ℚ :=
  if c = "SOFT" then 35/1000
  else if c = "MEDIUM" then 25/1000
  else if c = "HARD" then 18/1000
  else if c = "INTERMEDIATE" then 30/1000
  else if c = "WET" then 22/1000
  else 25/1000

/-- `PhysicsModel.COMPOUND_PACE_DELTA.get(c, 0.5)`. -/
def COMPOUND_PACE_DELTA (c : String) : ℚ :=
  if c = "SOFT" then 0
  else if c = "MEDIUM" then 5/10
  else if c = "HARD" then 11/10
  else if c = "INTERMEDIATE" then 2
  else if c = "WET" then 45/10
  else 5/10

/-- `PhysicsModel.MODE_MULTIPLIERS[...][ 'wear']` with default `NORMAL`. -/
def MODE_WEAR (mode : String) : ℚ :=
  if mode = "PUSH" then 16/10
  else if mode = "NORMAL" then 1
  else if mode = "CONSERVE" then 6/10
  else 1

/-- `PhysicsModel.MODE_MULTIPLIERS[...][ 'pace']` with default `NORMAL`. -/
def MODE_PACE (mode : String) : ℚ :=
  if mode = "PUSH" then 105/100
  else if mode = "NORMAL" then 1
  else if mode = "CONSERVE" then 92/100
  else 1

/-- `PhysicsModel.calculate_tire_wear`. -/
def calculate_tire_wear (compound : String) (current_wear : ℚ) (mode : String) : ℚ :=
  let base := TIRE_WEAR_RATES (pyUpper compound)
  let mult := MODE_WEAR mode
  let cliff_factor := 1 + current_wear * (15/10)
  base * mult * cliff_factor

/-- `PhysicsModel.calculate_pace_factor`.  Note: the damp-band branch tests
`compound == 'SLICK'` exactly as the source does (line 91 of
`src/core/physics.py`). -/
def calculate_pace_factor (compound : String) (wear : ℚ) (mode : String)
    (rain_intensity : ℚ) : ℚ :=
  let wear_penalty : ℚ :=
    if wear < 6/10 then wear * (1/10) else 6/100 + (wear - 6/10) * (1/2)
  let compound_delta := COMPOUND_PACE_DELTA (pyUpper compound) * (12/1000)
  let weather_penalty : ℚ :=
    if rain_intensity < 1/10 then
      (if compound = "INTERMEDIATE" ∨ compound = "WET" then
        5/100 + rain_intensity * (1/10) else 0)
    else if rain_intensity < 6/10 then
      (if compound = "SLICK" then rain_intensity * (8/10)
       else if compound = "WET" then 5/100
       else 0)
    else
      (if compound ≠ "WET" then rain_intensity * (12/10) else 0)
  let mode_pace := MODE_PACE mode
  let total_perf := mode_pace - wear_penalty - compound_delta - weather_penalty
  max (1/10) total_perf

/-- The `physics` constructor argument of `WhatIfSimEngine` is an object with
the two methods of `PhysicsModel`; we embed it as a record of the two
functions so that engine theorems can quantify over the injected model. -/
structure PhysicsModel where
  calculate_tire_wear : String → ℚ → String → ℚ
  calculate_pace_factor : String → ℚ → String → ℚ → ℚ

/-- The concrete `PhysicsModel()` instance of `src/core/physics.py`. -/
def thePhysicsModel : PhysicsModel :=
  { calculate_tire_wear := calculate_tire_wear
    calculate_pace_factor := calculate_pace_factor }

/-! ### `src/core/weather.py` -/

/-- `WeatherSystem` state: `historical_rain : Dict[int, float]` plus sandbox
override fields. -/
structure WeatherSystem where
  historical_rain : List (ℤ × ℚ)
  sandbox_mode : Bool
  sandbox_intensity : ℚ
  track_temp : ℚ
  air_temp : ℚ

/-- `WeatherSystem.set_sandbox_rain`. -/
def WeatherSystem.set_sandbox_rain (w : WeatherSystem) (intensity : ℚ) : WeatherSystem :=
  { w with sandbox_mode := true, sandbox_intensity := max 0 (min 1 intensity) }

/-- `WeatherSystem.toggle_sandbox`. -/
def WeatherSystem.toggle_sandbox (w : WeatherSystem) : WeatherSystem :=
  { w with sandbox_mode := !w.sandbox_mode }

/-- `WeatherSystem.get_current_weather`: sandbox override, else exact-second
lookup in `historical_rain` with dry (`0.0`) default. -/
def WeatherSystem.get_current_weather (w : WeatherSystem) (time_seconds : ℚ) : ℚ :=
  if w.sandbox_mode then w.sandbox_intensity
  else
    (((w.historical_rain.find? (fun p => p.1 == pyInt time_seconds)).map
      (fun p => p.2)).getD 0)

/-! ### `src/core/sim_engine.py` -/

/-- `CarState` dataclass of `WhatIfSimEngine`, all defaults as in the source. -/
structure CarState where
  driver_code : String
  driver_name : String
  team : String
  team_color : ℕ × ℕ × ℕ
  current_lap : ℕ := 1
  lap_progress : ℚ := 0
  position : ℕ := 1
  gap_to_leader : ℚ := 0
  last_lap_time : ℚ := 90
  compound : String := "MEDIUM"
  tire_age : ℕ := 0
  tire_wear : ℚ := 0
  in_pit : Bool := false
  pit_requested : Bool := false
  pit_timer : ℚ := 0
  next_compound : String := ""
  mode : String := "NORMAL"
  is_player : Bool := false
  finished : Bool := false
  dnf : Bool := false
  track_x : ℚ := 0
  track_y : ℚ := 0

/-- `WhatIfSimEngine.PIT_STOP_DURATION`. -/
def PIT_STOP_DURATION : ℚ := 22

/-- Junk value standing for Python's `KeyError` on `self.race_data[code]`:
car keys are exactly the race-data keys by construction, so the lookup never
misses in a reachable engine. -/
def defaultDriverData : DriverRaceData :=
  { driver_code := "", driver_name := "", team := "", team_color := (0, 0, 0)
    laps := [], final_position := 0, total_laps := 0 }

/-- Likewise for `self.cars[self.player_driver]`. -/
def defaultCar : CarState :=
  { driver_code := "", driver_name := "", team := "", team_color := (0, 0, 0) }

/-- `WhatIfSimEngine` state.  Python dicts (`cars`, `cumulative_times`,
`race_data`) are insertion-ordered and key-unique; we model them as
association lists in that order.  `reference_telemetry` is the X/Y column
pair of the reference DataFrame; `track_length = len(reference_telemetry)`. -/
structure Engine where
  race_data : List (String × DriverRaceData)
  reference_telemetry : List (ℚ × ℚ)
  physics : PhysicsModel
  weather : WeatherSystem
  player_driver : String
  total_laps : ℕ
  cars : List (String × CarState)
  current_lap : ℕ
  race_time : ℚ
  lap_start_time : ℚ
  paused : Bool
  cumulative_times : List (String × ℚ)

/-- `WhatIfSimEngine._get_lap_data`: first lap record whose `lap_number`
matches. -/
def _get_lap_data (driver_data : DriverRaceData) (lap : ℕ) : Option LapData :=
  driver_data.laps.find? (fun l => l.lap_number == lap)

/-- `WhatIfSimEngine._sync_track_position` (only writes the rendering fields
`track_x`/`track_y`; an empty telemetry frame would raise in Python and
leaves the car unchanged here). -/
def _sync_track_position (track : List (ℚ × ℚ)) (car : CarState) : CarState :=
  let idx : ℤ := pyInt (car.lap_progress * ((track.length : ℚ) - 1))
  let idx : ℤ := max 0 (min idx ((track.length : ℤ) - 1))
  match track[idx.toNat]? with
  | some row => { car with track_x := row.1, track_y := row.2 }
  | none => car

/-- `WhatIfSimEngine._update_ghost`, threading the car's own
`cumulative_times` entry. -/
def Engine.updGhost (e : Engine) (car : CarState) (dt : ℚ) (cum : ℚ) :
    CarState × ℚ :=
  let driver_data := (alookup e.race_data car.driver_code).getD defaultDriverData
  match _get_lap_data driver_data car.current_lap with
  | none => ({ car with finished := true }, cum)
  | some current_lap_data =>
    let real_lap_time := current_lap_data.lap_time_seconds
    let progress_per_second := 1 / real_lap_time
    let car1 : CarState := { car with lap_progress := car.lap_progress + progress_per_second * dt }
    if 1 ≤ car1.lap_progress then
      let car2 : CarState :=
        { car1 with lap_progress := car1.lap_progress - 1,
                    current_lap := car1.current_lap + 1,
                    last_lap_time := real_lap_time }
      let car3 : CarState :=
        match _get_lap_data driver_data car2.current_lap with
        | some next_lap_data =>
          let carA : CarState :=
            if current_lap_data.is_pit_in then
              { car2 with compound := next_lap_data.compound, tire_age := 0 }
            else
              { car2 with tire_age := next_lap_data.tire_life }
          { carA with position := next_lap_data.position }
        | none => car2
      let cum1 := cum + real_lap_time
      let car4 : CarState := if e.total_laps < car3.current_lap then { car3 with finished := true } else car3
      (car4, cum1)
    else (car1, cum)

/-- `WhatIfSimEngine._update_player`, threading the player's own
`cumulative_times` entry.  `race_time` has already been advanced by `dt`
when this runs (as in `update`). -/
def Engine.updPlayer (e : Engine) (car : CarState) (dt : ℚ) (cum : ℚ) :
    CarState × ℚ :=
  let driver_data := (alookup e.race_data car.driver_code).getD defaultDriverData
  if car.in_pit then
    let car1 : CarState := { car with pit_timer := car.pit_timer + dt }
    if PIT_STOP_DURATION ≤ car1.pit_timer then
      ({ car1 with in_pit := false, pit_timer := 0, compound := car1.next_compound,
                   tire_age := 0, tire_wear := 0 }, cum)
    else (car1, cum)
  else
    match _get_lap_data driver_data car.current_lap with
    | none => ({ car with finished := true }, cum)
    | some current_lap_data =>
      let base_lap_time := current_lap_data.lap_time_seconds
      let rain_level := e.weather.get_current_weather e.race_time
      let pace_factor :=
        e.physics.calculate_pace_factor car.compound car.tire_wear car.mode rain_level
      let modified_lap_time := base_lap_time / pace_factor
      let progress_per_second := 1 / modified_lap_time
      let car1 : CarState := { car with lap_progress := car.lap_progress + progress_per_second * dt }
      let car2 : CarState :=
        if 0 < car1.lap_progress then
          let wear_rate := e.physics.calculate_tire_wear car1.compound car1.tire_wear car1.mode
          { car1 with
            tire_wear := min (99/100) (car1.tire_wear + wear_rate * dt / modified_lap_time) }
        else car1
      if 1 ≤ car2.lap_progress then
        let car3 : CarState :=
          { car2 with lap_progress := car2.lap_progress - 1,
                      current_lap := car2.current_lap + 1,
                      last_lap_time := modified_lap_time,
                      tire_age := car2.tire_age + 1 }
        let cum1 := cum + modified_lap_time
        let pr := car3.pit_requested
        let car4 : CarState := if pr then { car3 with in_pit := true, pit_requested := false } else car3
        let cum2 := if pr then cum1 + PIT_STOP_DURATION else cum1
        let car5 : CarState := if e.total_laps < car4.current_lap then { car4 with finished := true } else car4
        (car5, cum2)
      else (car2, cum)

/-- One iteration of the per-car loop in `WhatIfSimEngine.update`. -/
def Engine.updateCar (e : Engine) (dt : ℚ) (car : CarState) (cum : ℚ) :
    CarState × ℚ :=
  if car.finished || car.dnf then (car, cum)
  else if car.is_player then e.updPlayer car dt cum
  else e.updGhost car dt cum

/-- Sort predicate of `standings.sort(key=lambda x: (-x[1], x[2]))`:
ascending lexicographic on `(-distance, time)`. -/
def standingsLE (a b : String × ℚ × ℚ) : Bool :=
  decide (b.2.1 < a.2.1) || (decide (a.2.1 = b.2.1) && decide (a.2.2 ≤ b.2.2))

/-- `for i, (code, distance, time) in enumerate(standings)` paired with the
lookup the dict assignment performs: the rank `i` and `time` of the entry
for key `k`. -/
def rankOf : List (String × ℚ × ℚ) → String → ℕ → Option (ℕ × ℚ)
  | [], _, _ => none
  | s :: rest, k, i => if s.1 = k then some (i, s.2.2) else rankOf rest k (i + 1)

/-- The dict assignments `self.cars[code].position = i + 1;
self.cars[code].gap_to_leader = time - leader_time` seen from one car. -/
def assignCar (sorted : List (String × ℚ × ℚ)) (leader_time : ℚ)
    (code : String) (car : CarState) : CarState :=
  match rankOf sorted code 0 with
  | some it => { car with position := it.1 + 1, gap_to_leader := it.2 - leader_time }
  | none => car

/-- The `(code, distance, time)` standings entry built for one car. -/
def standingsEntry (cums : List (String × ℚ)) (p : String × CarState) :
    String × ℚ × ℚ :=
  let distance : ℚ :=
    if p.2.dnf then -1 else ((p.2.current_lap : ℚ) - 1) + p.2.lap_progress
  (p.1, distance, alookupD cums p.1 0)

/-- `WhatIfSimEngine._recalculate_positions`.  Every car key occurs exactly
once in `standings` (dict), so the enumerated in-place assignments equal the
per-key rank lookup. -/
def Engine.recalculate_positions (e : Engine) : Engine :=
  let standings := e.cars.map (standingsEntry e.cumulative_times)
  let sortedStandings := stableSort standingsLE standings
  let leader_time : ℚ := match sortedStandings with | [] => 0 | s :: _ => s.2.2
  { e with cars := e.cars.map (fun p =>
      (p.1, assignCar sortedStandings leader_time p.1 p.2)) }

/-- `WhatIfSimEngine.update`.  Each loop body reads and writes only its own
car and its own `cumulative_times` entry (plus the already-advanced
`race_time`), so the in-order loop equals an independent per-entry map;
`cumulative_times` carries exactly the car keys throughout. -/
def Engine.update (e : Engine) (dt : ℚ) : Engine :=
  if e.paused then e
  else
    let e1 : Engine := { e with race_time := e.race_time + dt }
    let stepped : List (String × (CarState × ℚ)) := e1.cars.map (fun p =>
      (p.1, e1.updateCar dt p.2 (alookupD e1.cumulative_times p.1 0)))
    let e2 : Engine := { e1 with
      cars := stepped.map (fun p => (p.1, p.2.1)),
      cumulative_times := stepped.map (fun p => (p.1, p.2.2)) }
    let e3 : Engine := e2.recalculate_positions
    { e3 with
      cars := e3.cars.map (fun p => (p.1, _sync_track_position e3.reference_telemetry p.2)) }

/-- The alias `self.player_state = self.cars[self.player_driver]`. -/
def Engine.playerState (e : Engine) : CarState :=
  (alookup e.cars e.player_driver).getD defaultCar

/-- Writing through that alias mutates the dict entry at the player key. -/
def Engine.setPlayer (e : Engine) (car : CarState) : Engine :=
  { e with cars := e.cars.map (fun p =>
      (p.1, if p.1 == e.player_driver then car else p.2)) }

/-- `WhatIfSimEngine.set_mode`. -/
def Engine.set_mode (e : Engine) (mode : String) : Engine :=
  if mode = "PUSH" ∨ mode = "NORMAL" ∨ mode = "CONSERVE" then
    e.setPlayer { e.playerState with mode := mode }
  else e

/-- `WhatIfSimEngine.request_pit` (state, returned boolean). -/
def Engine.request_pit (e : Engine) (compound : String) : Engine × Bool :=
  if !e.playerState.in_pit && !e.playerState.pit_requested then
    (e.setPlayer { e.playerState with pit_requested := true, next_compound := compound }, true)
  else (e, false)

/-- `WhatIfSimEngine.cancel_pit` (state, returned boolean). -/
def Engine.cancel_pit (e : Engine) : Engine × Bool :=
  if e.playerState.pit_requested && !e.playerState.in_pit then
    (e.setPlayer { e.playerState with pit_requested := false }, true)
  else (e, false)

/-- `total_time = Σ lap_time_seconds` over laps with `lap_number < target`,
accumulated in iteration order. -/
def sumLapsBefore (laps : List LapData) (target : ℕ) : ℚ :=
  (laps.filter (fun l => l.lap_number < target)).foldl (fun acc l => acc + l.lap_time_seconds) 0

/-- The per-car body of the `jump_to_lap` loop (with `target` already
clamped). -/
def Engine.jumpCar (e : Engine) (target : ℕ) (code : String) (car : CarState) :
    CarState :=
  let driver_data := (alookup e.race_data code).getD defaultDriverData
  let car1 : CarState :=
    { car with current_lap := target, lap_progress := 0,
               finished := decide (e.total_laps < target) }
  let car2 : CarState :=
    match _get_lap_data driver_data target with
    | some lap_data =>
      { car1 with position := lap_data.position, compound := lap_data.compound,
                  tire_age := lap_data.tire_life }
    | none => car1
  let car3 : CarState := { car2 with in_pit := false, pit_requested := false, pit_timer := 0 }
  _sync_track_position e.reference_telemetry car3

/-- `WhatIfSimEngine.jump_to_lap`.  An engine with no cars would raise
`ZeroDivisionError` in Python on the final average; `ℚ` division by zero
returns `0` here. -/
def Engine.jump_to_lap (e : Engine) (target_lap : ℤ) : Engine :=
  let target : ℕ := (max 1 (min target_lap (e.total_laps : ℤ))).toNat
  let cars1 := e.cars.map (fun p => (p.1, e.jumpCar target p.1 p.2))
  let cums1 := e.cars.map (fun p =>
    (p.1, sumLapsBefore ((alookup e.race_data p.1).getD defaultDriverData).laps target))
  { e with cars := cars1, cumulative_times := cums1, current_lap := target,
           race_time := (cums1.foldl (fun acc p => acc + p.2) 0) / (cums1.length : ℚ) }

/-- `WhatIfSimEngine.set_race_progress`. -/
def Engine.set_race_progress (e : Engine) (progress : ℚ) : Engine :=
  e.jump_to_lap (pyInt (progress * (e.total_laps : ℚ)) + 1)

/-- `WhatIfSimEngine.toggle_pause` (state part; the return value is the new
flag). -/
def Engine.toggle_pause (e : Engine) : Engine :=
  { e with paused := !e.paused }

/-- One entry of `WhatIfSimEngine._init_cars`. -/
def _init_car (track : List (ℚ × ℚ)) (player_driver : String)
    (p : String × DriverRaceData) : String × CarState :=
  let starting_compound := match p.2.laps with | [] => "MEDIUM" | l :: _ => l.compound
  let starting_position := match p.2.laps with | [] => 20 | l :: _ => l.position
  (p.1, _sync_track_position track
    { driver_code := p.1, driver_name := p.2.driver_name, team := p.2.team,
      team_color := p.2.team_color, current_lap := 1, position := starting_position,
      compound := starting_compound, is_player := p.1 == player_driver })

/-- `WhatIfSimEngine.__init__` (a `player_driver` absent from `race_data`
would raise on `self.cars[player_driver]` in Python). -/
def mkEngine (race_data : List (String × DriverRaceData))
    (reference_telemetry : List (ℚ × ℚ)) (physics : PhysicsModel)
    (weather : WeatherSystem) (player_driver : String) (total_laps : ℕ) : Engine :=
  { race_data := race_data
    reference_telemetry := reference_telemetry
    physics := physics
    weather := weather
    player_driver := player_driver
    total_laps := total_laps
    cars := race_data.map (_init_car reference_telemetry player_driver)
    current_lap := 1
    race_time := 0
    lap_start_time := 0
    paused := false
    cumulative_times := race_data.map (fun p => (p.1, 0)) }

/-- The action/tick interface an external driver may invoke between frames. -/
inductive Op where
  | update (dt : ℚ)
  | set_mode (mode : String)
  | request_pit (compound : String)
  | cancel_pit
  | jump_to_lap (n : ℤ)
  | set_race_progress (p : ℚ)
  | toggle_pause

/-- Apply one interface call (dropping the boolean results of the pit
actions). -/
def Engine.applyOp (e : Engine) : Op → Engine
  | .update dt => e.update dt
  | .set_mode m => e.set_mode m
  | .request_pit c => (e.request_pit c).1
  | .cancel_pit => (e.cancel_pit).1
  | .jump_to_lap n => e.jump_to_lap n
  | .set_race_progress p => e.set_race_progress p
  | .toggle_pause => e.toggle_pause

/-- Equality of two car states on every field except the ranking outputs
`position`/`gap_to_leader` and the rendering outputs `track_x`/`track_y`. -/
def EqOutsideRanking (a b : CarState) : Prop :=
  a.driver_code = b.driver_code ∧ a.driver_name = b.driver_name ∧ a.team = b.team ∧
  a.team_color = b.team_color ∧ a.current_lap = b.current_lap ∧
  a.lap_progress = b.lap_progress ∧ a.last_lap_time = b.last_lap_time ∧
  a.compound = b.compound ∧ a.tire_age = b.tire_age ∧ a.tire_wear = b.tire_wear ∧
  a.in_pit = b.in_pit ∧ a.pit_requested = b.pit_requested ∧ a.pit_timer = b.pit_timer ∧
  a.next_compound = b.next_compound ∧ a.mode = b.mode ∧ a.is_player = b.is_player ∧
  a.finished = b.finished ∧ a.dnf = b.dnf

/-! ### Concrete fixtures for witnesses and counterexamples -/

/-- A freshly constructed `WeatherSystem()` (empty historical data). -/
def weather0 : WeatherSystem :=
  { historical_rain := [], sandbox_mode := false, sandbox_intensity := 0,
    track_temp := 30, air_temp := 25 }

def lapW1 : LapData :=
  { lap_number := 1, lap_time_seconds := 100, compound := "SOFT", tire_life := 1,
    is_pit_out := false, is_pit_in := false, position := 3 }

def lapW2 : LapData :=
  { lap_number := 2, lap_time_seconds := 100, compound := "HARD", tire_life := 1,
    is_pit_out := false, is_pit_in := false, position := 5 }

def lapW3 : LapData :=
  { lap_number := 3, lap_time_seconds := 100, compound := "HARD", tire_life := 2,
    is_pit_out := false, is_pit_in := false, position := 5 }

def ddW : DriverRaceData :=
  { driver_code := "PL", driver_name := "P L", team := "T", team_color := (1, 2, 3),
    laps := [lapW1, lapW2, lapW3], final_position := 5, total_laps := 3 }

def carW : CarState :=
  { driver_code := "PL", driver_name := "P L", team := "T", team_color := (1, 2, 3),
    compound := "SOFT", is_player := true, pit_requested := true,
    next_compound := "HARD" }

def engW : Engine :=
  { race_data := [("PL", ddW)], reference_telemetry := [(0, 0)],
    physics := thePhysicsModel, weather := weather0, player_driver := "PL",
    total_laps := 3, cars := [("PL", carW)], current_lap := 1, race_time := 0,
    lap_start_time := 0, paused := false, cumulative_times := [("PL", 0)] }

/-- C5 invariant: no car ever has `pit_requested` and `in_pit` both true. -/
def PitInv (e : Engine) : Prop :=
  ∀ p ∈ e.cars, ¬(p.2.pit_requested = true ∧ p.2.in_pit = true)

/-- C4 invariant: every car's tire wear lies in `[0, 0.99]`. -/
def WearInv (e : Engine) : Prop :=
  ∀ p ∈ e.cars, 0 ≤ p.2.tire_wear ∧ p.2.tire_wear ≤ 99/100

/-- Historical lap durations are positive (the loader's ground truth; a
`NaT` lap defaults to `90.0`). -/
def RaceDataWF (rd : List (String × DriverRaceData)) : Prop :=
  ∀ q ∈ rd, ∀ l ∈ q.2.laps, 0 < l.lap_time_seconds

/-- Tick durations handed to `update` are elapsed frame times, hence
nonnegative. -/
def OpWF : Op → Prop
  | .update dt => 0 ≤ dt
  | _ => True

/-- One-step wear evolution of C4: per car (matched by key), wear never
decreases except a completed pit stop resetting it to exactly `0`. -/
def WearMonoStep (e e2 : Engine) : Prop :=
  ∀ k c c2, alookup e.cars k = some c → alookup e2.cars k = some c2 →
    c.tire_wear ≤ c2.tire_wear ∨
      (c2.tire_wear = 0 ∧ c.in_pit = true ∧ c2.in_pit = false)

/-- The ghost-observable car fields of C8: `current_lap`, `lap_progress`,
`compound`, `tire_age`, `last_lap_time`, `finished`, `dnf` (plus the
immutable `driver_code` used for the history lookup). -/
def GhostObsEq (a b : CarState) : Prop :=
  a.driver_code = b.driver_code ∧ a.current_lap = b.current_lap ∧
  a.lap_progress = b.lap_progress ∧ a.compound = b.compound ∧
  a.tire_age = b.tire_age ∧ a.last_lap_time = b.last_lap_time ∧
  a.finished = b.finished ∧ a.dnf = b.dnf

/-- C8 coupling of two car stores: same keys in the same order, same player
flags, and ghost cars observationally equal. -/
def CarsRel (l1 l2 : List (String × CarState)) : Prop :=
  List.Forall₂ (fun p q => p.1 = q.1 ∧ p.2.is_player = q.2.is_player ∧
    (p.2.is_player = false → GhostObsEq p.2 q.2)) l1 l2

/-- C8 coupling of two engines that may differ in the injected physics
model, the weather state, the player car's state, the cumulative times, the
race clock and ranking outputs. -/
def EngRel (e1 e2 : Engine) : Prop :=
  e1.race_data = e2.race_data ∧ e1.total_laps = e2.total_laps ∧
  e1.paused = e2.paused ∧ CarsRel e1.cars e2.cars

/-- Ghost driver whose historical record stops after lap 1 (retired). -/
def lapG1 : LapData :=
  { lap_number := 1, lap_time_seconds := 100, compound := "MEDIUM", tire_life := 1,
    is_pit_out := false, is_pit_in := false, position := 1 }

def ddGH : DriverRaceData :=
  { driver_code := "GH", driver_name := "G H", team := "T", team_color := (0, 0, 0),
    laps := [lapG1], final_position := 1, total_laps := 1 }

def ddOT : DriverRaceData :=
  { driver_code := "OT", driver_name := "O T", team := "T", team_color := (0, 0, 0),
    laps := [lapW1, lapW2, lapW3], final_position := 5, total_laps := 3 }

def carGH : CarState :=
  { driver_code := "GH", driver_name := "G H", team := "T", team_color := (0, 0, 0),
    compound := "MEDIUM" }

def carOT : CarState :=
  { driver_code := "OT", driver_name := "O T", team := "T", team_color := (0, 0, 0),
    compound := "SOFT" }

def carPLf : CarState :=
  { driver_code := "PL", driver_name := "P L", team := "T", team_color := (1, 2, 3),
    compound := "SOFT", is_player := true, finished := true }

/-- Three-car engine: ghost `GH` retired after lap 1, ghost `OT` with a full
record, player `PL` already finished. -/
def engC1 : Engine :=
  { race_data := [("GH", ddGH), ("OT", ddOT), ("PL", ddW)],
    reference_telemetry := [(0, 0)], physics := thePhysicsModel,
    weather := weather0, player_driver := "PL", total_laps := 3,
    cars := [("GH", carGH), ("OT", carOT), ("PL", carPLf)], current_lap := 1,
    race_time := 0, lap_start_time := 0, paused := false,
    cumulative_times := [("GH", 0), ("OT", 0), ("PL", 0)] }

def ddA : DriverRaceData :=
  { driver_code := "A", driver_name := "A A", team := "T", team_color := (0, 0, 0),
    laps := [lapW1, lapW2, lapW3], final_position := 5, total_laps := 3 }

def ddB : DriverRaceData :=
  { driver_code := "B", driver_name := "B B", team := "T", team_color := (0, 0, 0),
    laps := [lapW1, lapW2, lapW3], final_position := 5, total_laps := 3 }

/-- Two-car engine freshly constructed by `__init__` (driver `B` is the
player). -/
def engC2 : Engine :=
  mkEngine [("A", ddA), ("B", ddB)] [(0, 0)] thePhysicsModel weather0 "B" 3

/-- An alternative injected physics model (constant outputs), used to vary
the physics inputs of a run. -/
def altPhysics : PhysicsModel :=
  { calculate_tire_wear := fun _ _ _ => 5,
    calculate_pace_factor := fun _ _ _ _ => 2 }

/-- Monsoon sandbox weather, used to vary the weather inputs of a run. -/
def wetWeather : WeatherSystem := weather0.set_sandbox_rain 1

/-! ### Generic association-list lemmas -/

theorem alookup_cons {α : Type} (a : String × α) (l : List (String × α)) (k : String) :
    alookup (a :: l) k = if a.1 = k then some a.2 else alookup l k := by
  by_cases h : a.1 = k
  · simp [alookup, List.find?_cons_of_pos, h]
  · simp [alookup, List.find?_cons_of_neg, h]

theorem alookup_map_keyfix {α β : Type} (l : List (String × α)) (f : String × α → β)
    (k : String) :
    alookup (l.map (fun p => (p.1, f p))) k = (alookup l k).map (fun a => f (k, a)) := by
  induction l with
  | nil => rfl
  | cons a l ih =>
    rw [List.map_cons, alookup_cons, alookup_cons]
    by_cases h : a.1 = k
    · subst h; simp
    · simp [h, ih]

theorem alookup_mem {α : Type} {l : List (String × α)} {k : String} {v : α}
    (h : alookup l k = some v) : (k, v) ∈ l := by
  unfold alookup at h
  rcases hf : l.find? (fun p => p.1 == k) with _ | p
  · rw [hf] at h; cases h
  · rw [hf] at h
    have hm := List.mem_of_find?_eq_some hf
    have hp := List.find?_some hf
    simp only [beq_iff_eq] at hp
    simp only [Option.map_some'] at h
    cases h
    cases p
    cases hp
    exact hm

/-! ### Literal evaluations of `pyUpper` (kernel-reducible) -/

theorem pyUpper_SOFT : pyUpper "SOFT" = "SOFT" := by decide

theorem pyUpper_MEDIUM : pyUpper "MEDIUM" = "MEDIUM" := by decide

theorem pyUpper_HARD : pyUpper "HARD" = "HARD" := by decide

theorem pyUpper_INTERMEDIATE : pyUpper "INTERMEDIATE" = "INTERMEDIATE" := by decide

theorem pyUpper_WET : pyUpper "WET" = "WET" := by decide

/-! ### Field-preservation shapes of the per-car transformations -/

theorem sync_eq (track : List (ℚ × ℚ)) (car : CarState) :
    ∃ x y, _sync_track_position track car = { car with track_x := x, track_y := y } := by
  simp only [_sync_track_position]
  rcases h : track[(0 ⊔ (pyInt (car.lap_progress * ((track.length : ℚ) - 1)) ⊓
      ((track.length : ℤ) - 1))).toNat]? with _ | row
  · exact ⟨car.track_x, car.track_y, rfl⟩
  · exact ⟨row.1, row.2, rfl⟩

theorem assignCar_eq (s : List (String × ℚ × ℚ)) (lt : ℚ) (code : String)
    (car : CarState) :
    ∃ pos gap, assignCar s lt code car = { car with position := pos, gap_to_leader := gap } := by
  unfold assignCar
  split
  · exact ⟨_, _, rfl⟩
  · exact ⟨car.position, car.gap_to_leader, rfl⟩

theorem eqOutsideRanking_refl (a : CarState) : EqOutsideRanking a a := by
  unfold EqOutsideRanking; tauto

theorem eqOutsideRanking_trans {a b c : CarState} (h1 : EqOutsideRanking a b)
    (h2 : EqOutsideRanking b c) : EqOutsideRanking a c := by
  unfold EqOutsideRanking at h1 h2 ⊢
  obtain ⟨a1, a2, a3, a4, a5, a6, a7, a8, a9, a10, a11, a12, a13, a14, a15, a16, a17, a18⟩ := h1
  obtain ⟨b1, b2, b3, b4, b5, b6, b7, b8, b9, b10, b11, b12, b13, b14, b15, b16, b17, b18⟩ := h2
  refine ⟨?_, ?_, ?_, ?_, ?_, ?_, ?_, ?_, ?_, ?_, ?_, ?_, ?_, ?_, ?_, ?_, ?_, ?_⟩ <;>
    simp_all

theorem sync_eqOutsideRanking (track : List (ℚ × ℚ)) (car : CarState) :
    EqOutsideRanking (_sync_track_position track car) car := by
  obtain ⟨x, y, h⟩ := sync_eq track car
  rw [h]
  exact ⟨rfl, rfl, rfl, rfl, rfl, rfl, rfl, rfl, rfl, rfl, rfl, rfl, rfl, rfl, rfl, rfl,
    rfl, rfl⟩

theorem assignCar_eqOutsideRanking (s : List (String × ℚ × ℚ)) (lt : ℚ)
    (code : String) (car : CarState) :
    EqOutsideRanking (assignCar s lt code car) car := by
  obtain ⟨pos, gap, h⟩ := assignCar_eq s lt code car
  rw [h]
  exact ⟨rfl, rfl, rfl, rfl, rfl, rfl, rfl, rfl, rfl, rfl, rfl, rfl, rfl, rfl, rfl, rfl,
    rfl, rfl⟩

/-- Per-key decomposition of one unpaused `update(dt)` tick: the car stored
at key `k` afterwards agrees, outside the ranking/rendering fields, with the
output of the per-car step function on the old car, and the key's
cumulative-time entry is exactly that step's cumulative output. -/
theorem update_lookup (e : Engine) (dt : ℚ) (k : String) (car : CarState)
    (hp : e.paused = false) (hcar : alookup e.cars k = some car) :
    ∃ car', alookup (e.update dt).cars k = some car' ∧
      EqOutsideRanking car'
        ((Engine.updateCar { e with race_time := e.race_time + dt } dt car
          (alookupD e.cumulative_times k 0)).1) ∧
      alookup (e.update dt).cumulative_times k =
        some ((Engine.updateCar { e with race_time := e.race_time + dt } dt car
          (alookupD e.cumulative_times k 0)).2) := by
  simp only [Engine.update, hp, Bool.false_eq_true, if_false, Engine.recalculate_positions]
  simp only [alookup_map_keyfix, hcar, Option.map_some']
  refine ⟨_, rfl, ?_, trivial⟩
  exact eqOutsideRanking_trans (sync_eqOutsideRanking _ _) (assignCar_eqOutsideRanking _ _ _ _)

theorem sync_compound (track : List (ℚ × ℚ)) (car : CarState) :
    (_sync_track_position track car).compound = car.compound := by
  obtain ⟨x, y, h⟩ := sync_eq track car; rw [h]

theorem sync_position (track : List (ℚ × ℚ)) (car : CarState) :
    (_sync_track_position track car).position = car.position := by
  obtain ⟨x, y, h⟩ := sync_eq track car; rw [h]

theorem sync_gap_to_leader (track : List (ℚ × ℚ)) (car : CarState) :
    (_sync_track_position track car).gap_to_leader = car.gap_to_leader := by
  obtain ⟨x, y, h⟩ := sync_eq track car; rw [h]

/-! ### C9 -/

/-- C9: for a lap `n` in `[1, total_laps]`, `jump_to_lap n` followed by an
immediate read of a car's `compound` and `position` yields exactly the
values stored in that driver's historical record for lap `n`. -/
theorem C9_jump_to_lap_roundtrip (e : Engine) (n : ℤ) (k : String) (car : CarState)
    (dd : DriverRaceData) (ld : LapData)
    (hcar : alookup e.cars k = some car)
    (hdd : alookup e.race_data k = some dd)
    (h1 : 1 ≤ n) (h2 : n ≤ (e.total_laps : ℤ))
    (hld : _get_lap_data dd n.toNat = some ld) :
    ∃ car', alookup (e.jump_to_lap n).cars k = some car' ∧
      car'.compound = ld.compound ∧ car'.position = ld.position := by
  have htn : (max 1 (min n (e.total_laps : ℤ))).toNat = n.toNat := by omega
  simp only [Engine.jump_to_lap]
  simp only [alookup_map_keyfix, hcar, Option.map_some']
  refine ⟨_, rfl, ?_, ?_⟩ <;>
    simp only [Engine.jumpCar, htn, hdd, Option.getD_some, hld, sync_compound,
      sync_position]

/-! ### C6 -/

/-- Single-step shape of `_update_player` at a lap boundary with a pending
pit request: pit entered, request cleared, live timer untouched, and the
cumulative ledger takes the modified lap time plus the fixed pit duration. -/
theorem updPlayer_pit_entry (e : Engine) (car : CarState) (dt cum : ℚ)
    (dd : DriverRaceData) (ld : LapData)
    (hdd : alookup e.race_data car.driver_code = some dd)
    (hpit : car.in_pit = false) (hreq : car.pit_requested = true)
    (hld : _get_lap_data dd car.current_lap = some ld)
    (hwrap : 1 ≤ car.lap_progress + 1 / (ld.lap_time_seconds /
        e.physics.calculate_pace_factor car.compound car.tire_wear car.mode
          (e.weather.get_current_weather e.race_time)) * dt) :
    (e.updPlayer car dt cum).1.in_pit = true ∧
    (e.updPlayer car dt cum).1.pit_requested = false ∧
    (e.updPlayer car dt cum).1.pit_timer = car.pit_timer ∧
    (e.updPlayer car dt cum).2 = cum + ld.lap_time_seconds /
        e.physics.calculate_pace_factor car.compound car.tire_wear car.mode
          (e.weather.get_current_weather e.race_time) + PIT_STOP_DURATION := by
  have h0 : (0:ℚ) < car.lap_progress + 1 / (ld.lap_time_seconds /
      e.physics.calculate_pace_factor car.compound car.tire_wear car.mode
        (e.weather.get_current_weather e.race_time)) * dt :=
    lt_of_lt_of_le zero_lt_one hwrap
  simp only [Engine.updPlayer, hdd, Option.getD_some, hpit, Bool.false_eq_true, if_false,
    hld]
  rw [if_pos h0]
  dsimp only
  rw [if_pos hwrap]
  dsimp only
  simp only [hreq, if_true]
  split <;> exact ⟨by trivial, by trivial, by trivial, by trivial⟩

/-- C6: if the player car has a pending pit request when its `lap_progress`
wraps past `1.0` during an unpaused `update(dt)`, then at that lap boundary
`in_pit` becomes true, `pit_requested` becomes false, and the player's
cumulative time immediately grows by the completed (modified) lap time plus
the fixed 22-second pit duration, independently of the live `pit_timer`
countdown (which is left untouched). -/
theorem C6_pit_request_commits_at_lap_boundary (e : Engine) (dt : ℚ) (k : String)
    (car : CarState) (dd : DriverRaceData) (ld : LapData)
    (hp : e.paused = false)
    (hcar : alookup e.cars k = some car)
    (hply : car.is_player = true) (hfin : car.finished = false) (hdnf : car.dnf = false)
    (hpit : car.in_pit = false) (hreq : car.pit_requested = true)
    (hdd : alookup e.race_data car.driver_code = some dd)
    (hld : _get_lap_data dd car.current_lap = some ld)
    (hwrap : 1 ≤ car.lap_progress + 1 / (ld.lap_time_seconds /
        e.physics.calculate_pace_factor car.compound car.tire_wear car.mode
          (e.weather.get_current_weather (e.race_time + dt))) * dt) :
    PIT_STOP_DURATION = 22 ∧
    ∃ car', alookup (e.update dt).cars k = some car' ∧
      car'.in_pit = true ∧ car'.pit_requested = false ∧ car'.pit_timer = car.pit_timer ∧
      alookup (e.update dt).cumulative_times k =
        some (alookupD e.cumulative_times k 0 + ld.lap_time_seconds /
          e.physics.calculate_pace_factor car.compound car.tire_wear car.mode
            (e.weather.get_current_weather (e.race_time + dt)) + PIT_STOP_DURATION) := by
  obtain ⟨car', hlook, heq, hcum⟩ := update_lookup e dt k car hp hcar
  have hstep : Engine.updateCar { e with race_time := e.race_time + dt } dt car
      (alookupD e.cumulative_times k 0) =
      Engine.updPlayer { e with race_time := e.race_time + dt } car dt
        (alookupD e.cumulative_times k 0) := by
    simp [Engine.updateCar, hfin, hdnf, hply]
  obtain ⟨q1, q2, q3, q4⟩ := updPlayer_pit_entry { e with race_time := e.race_time + dt }
    car dt (alookupD e.cumulative_times k 0) dd ld hdd hpit hreq hld hwrap
  refine ⟨rfl, car', hlook, ?_, ?_, ?_, ?_⟩
  · rw [heq.2.2.2.2.2.2.2.2.2.2.1, hstep, q1]
  · rw [heq.2.2.2.2.2.2.2.2.2.2.2.1, hstep, q2]
  · rw [heq.2.2.2.2.2.2.2.2.2.2.2.2.1, hstep, q3]
  · rw [hcum, hstep, q4]

/-- C6 witness: applying the pit-entry theorem to a concrete one-car engine
whose player has a pending pit request, with `dt` completing the lap. -/
theorem C6_witness :
    PIT_STOP_DURATION = 22 ∧
    ∃ car', alookup (engW.update 100).cars "PL" = some car' ∧
      car'.in_pit = true ∧ car'.pit_requested = false ∧
      car'.pit_timer = carW.pit_timer ∧
      alookup (engW.update 100).cumulative_times "PL" =
        some (alookupD engW.cumulative_times "PL" 0 + lapW1.lap_time_seconds /
          engW.physics.calculate_pace_factor carW.compound carW.tire_wear carW.mode
            (engW.weather.get_current_weather (engW.race_time + 100)) +
          PIT_STOP_DURATION) :=
  C6_pit_request_commits_at_lap_boundary engW 100 "PL" carW ddW lapW1
    rfl rfl rfl rfl rfl rfl rfl rfl rfl
    (by
      simp [engW, carW, lapW1, ddW, thePhysicsModel, weather0,
        WeatherSystem.get_current_weather, calculate_pace_factor, pyUpper_SOFT,
        COMPOUND_PACE_DELTA, MODE_PACE, List.find?]
      norm_num [max_def]
      exact le_of_eq (if_neg (by decide : ¬ ("NORMAL" : String) = "PUSH")).symm)

/-- C9 witness: jumping the concrete engine to lap 2 reproduces lap 2's
recorded compound and position. -/
theorem C9_witness :
    ∃ car', alookup (engW.jump_to_lap 2).cars "PL" = some car' ∧
      car'.compound = lapW2.compound ∧ car'.position = lapW2.position :=
  C9_jump_to_lap_roundtrip engW 2 "PL" carW ddW lapW2 rfl rfl
    (by norm_num) (by norm_num [engW]) rfl

/-! ### C7 -/

/-- C7: for every compound string, wear value, mode string and rain
intensity, `calculate_pace_factor` returns at least `0.1`. -/
theorem C7_pace_factor_ge_floor (compound : String) (wear : ℚ) (mode : String)
    (rain_intensity : ℚ) :
    1/10 ≤ calculate_pace_factor compound wear mode rain_intensity := by
  unfold calculate_pace_factor
  exact le_max_left _ _

/-! ### C3 -/

/-- C3 counterexample record: in the damp band (`0.1 ≤ rain < 0.6`) the code
compares the compound against the literal `'SLICK'`, which no compound value
ever equals, so a dry compound (SOFT/MEDIUM/HARD) receives *zero* weather
penalty there: its pace factor equals the completely dry value, and for SOFT
it is exactly `1`, contradicting the claimed strictly positive,
rain-proportional penalty. -/
theorem C3_dry_compound_damp_band_no_penalty :
    calculate_pace_factor "SOFT" 0 "NORMAL" (3/10) =
        calculate_pace_factor "SOFT" 0 "NORMAL" 0 ∧
    calculate_pace_factor "MEDIUM" 0 "NORMAL" (3/10) =
        calculate_pace_factor "MEDIUM" 0 "NORMAL" 0 ∧
    calculate_pace_factor "HARD" 0 "NORMAL" (3/10) =
        calculate_pace_factor "HARD" 0 "NORMAL" 0 ∧
    calculate_pace_factor "SOFT" 0 "NORMAL" (3/10) = 1 := by
  simp only [calculate_pace_factor, pyUpper_SOFT, pyUpper_MEDIUM, pyUpper_HARD]
  simp [COMPOUND_PACE_DELTA, MODE_PACE]
  norm_num [max_def]

/-! ### C10 -/

/-- C10: `jump_to_lap` leaves every car's `tire_wear` unchanged (it resets
compound, tire age, position, lap progress, pit state and cumulative times,
but never touches accumulated tire wear). -/
theorem C10_jump_to_lap_preserves_tire_wear (e : Engine) (n : ℤ) :
    (e.jump_to_lap n).cars.map (fun p => (p.1, p.2.tire_wear)) =
      e.cars.map (fun p => (p.1, p.2.tire_wear)) := by
  unfold Engine.jump_to_lap
  simp only [List.map_map]
  refine List.map_congr_left ?_
  intro p _
  simp only [Function.comp_apply]
  refine congrArg (fun w => (p.1, w)) ?_
  unfold Engine.jumpCar
  obtain ⟨x, y, hs⟩ := sync_eq e.reference_telemetry _
  rw [hs]
  split <;> rfl

/-! ### Kernel-decided `BEq` facts for concrete evaluations (the `norm_num`
calls below do not run the builtin `BEq` simprocs) -/

theorem beq_GH_OT : ("GH" == "OT") = false := by decide

theorem beq_GH_PL : ("GH" == "PL") = false := by decide

theorem beq_OT_GH : ("OT" == "GH") = false := by decide

theorem beq_OT_PL : ("OT" == "PL") = false := by decide

theorem beq_PL_GH : ("PL" == "GH") = false := by decide

theorem beq_PL_OT : ("PL" == "OT") = false := by decide

theorem beq_A_B : ("A" == "B") = false := by decide

theorem beq_B_A : ("B" == "A") = false := by decide

theorem beq_nat_12 : ((1:ℕ) == 2) = false := by decide

theorem beq_nat_13 : ((1:ℕ) == 3) = false := by decide

theorem beq_nat_14 : ((1:ℕ) == 4) = false := by decide

theorem beq_nat_21 : ((2:ℕ) == 1) = false := by decide

theorem beq_nat_23 : ((2:ℕ) == 3) = false := by decide

theorem beq_nat_24 : ((2:ℕ) == 4) = false := by decide

theorem beq_nat_31 : ((3:ℕ) == 1) = false := by decide

theorem beq_nat_32 : ((3:ℕ) == 2) = false := by decide

theorem beq_nat_34 : ((3:ℕ) == 4) = false := by decide

theorem ne_GH_OT : ¬ (("GH" : String) = "OT") := by decide

theorem ne_GH_PL : ¬ (("GH" : String) = "PL") := by decide

theorem ne_OT_GH : ¬ (("OT" : String) = "GH") := by decide

theorem ne_OT_PL : ¬ (("OT" : String) = "PL") := by decide

theorem ne_PL_GH : ¬ (("PL" : String) = "GH") := by decide

theorem ne_PL_OT : ¬ (("PL" : String) = "OT") := by decide

theorem ne_A_B : ¬ (("A" : String) = "B") := by decide

theorem ne_B_A : ¬ (("B" : String) = "A") := by decide

theorem ne_NORMAL_PUSH : ¬ (("NORMAL" : String) = "PUSH") := by decide

theorem ne_NORMAL_CONSERVE : ¬ (("NORMAL" : String) = "CONSERVE") := by decide

theorem ne_SOFT_INTERMEDIATE : ¬ (("SOFT" : String) = "INTERMEDIATE") := by decide

theorem ne_SOFT_WET : ¬ (("SOFT" : String) = "WET") := by decide

theorem ne_SOFT_MEDIUM : ¬ (("SOFT" : String) = "MEDIUM") := by decide

theorem ne_SOFT_HARD : ¬ (("SOFT" : String) = "HARD") := by decide

theorem ne_SOFT_SLICK : ¬ (("SOFT" : String) = "SLICK") := by decide

/-! ### C1 -/

set_option maxHeartbeats 2000000 in
/-- C1 evaluation: ghost `GH` has no lap-2 record.  Its lap wraps on the
second tick; on the third tick the missing record makes the code set
`finished := true` while `dnf` stays `false` (the claimed DNF transition
never happens — nothing in the engine ever sets `dnf`), and the engine still
updates the remaining ghost `OT` in that same tick. -/
theorem C1_missing_record_sets_finished_not_dnf :
    ∃ g o, alookup (((engC1.update 50).update 50).update 50).cars "GH" = some g ∧
      alookup (((engC1.update 50).update 50).update 50).cars "OT" = some o ∧
      g.finished = true ∧ g.dnf = false ∧ g.current_lap = 2 ∧
      o.current_lap = 2 ∧ o.lap_progress = 1/2 := by
  have h1 : engC1.update 50 =
      { engC1 with
        race_time := 50,
        cars := [("GH", { carGH with lap_progress := 1/2 }),
                 ("OT", { carOT with lap_progress := 1/2, position := 2 }),
                 ("PL", { carPLf with position := 3 })] } := by
    norm_num [engC1, carGH, carOT, carPLf, ddGH, ddOT, ddW, lapG1, lapW1, lapW2, lapW3,
      weather0, thePhysicsModel, Engine.update, Engine.updateCar, Engine.updGhost,
      Engine.updPlayer, Engine.recalculate_positions, standingsEntry, assignCar, rankOf,
      stableSort, insSorted, standingsLE, _get_lap_data, _sync_track_position,
      alookup, alookupD, pyInt, List.find?, beq_GH_OT, beq_GH_PL, beq_OT_GH,
      beq_OT_PL, beq_PL_GH, beq_PL_OT, beq_nat_12, beq_nat_13, beq_nat_14,
      beq_nat_21, beq_nat_23, beq_nat_24, beq_nat_31, beq_nat_32, beq_nat_34,
      ne_GH_OT, ne_GH_PL, ne_OT_GH, ne_OT_PL, ne_PL_GH, ne_PL_OT]
  have h2 : (({ engC1 with
      race_time := 50,
      cars := [("GH", { carGH with lap_progress := 1/2 }),
               ("OT", { carOT with lap_progress := 1/2, position := 2 }),
               ("PL", { carPLf with position := 3 })] } : Engine).update 50) =
      { engC1 with
        race_time := 100,
        cars := [("GH", { carGH with current_lap := 2, last_lap_time := 100 }),
                 ("OT", { carOT with current_lap := 2, last_lap_time := 100,
                                     tire_age := 1, position := 2 }),
                 ("PL", { carPLf with position := 3, gap_to_leader := -100 })],
        cumulative_times := [("GH", 100), ("OT", 100), ("PL", 0)] } := by
    norm_num [engC1, carGH, carOT, carPLf, ddGH, ddOT, ddW, lapG1, lapW1, lapW2, lapW3,
      weather0, thePhysicsModel, Engine.update, Engine.updateCar, Engine.updGhost,
      Engine.updPlayer, Engine.recalculate_positions, standingsEntry, assignCar, rankOf,
      stableSort, insSorted, standingsLE, _get_lap_data, _sync_track_position,
      alookup, alookupD, pyInt, List.find?, beq_GH_OT, beq_GH_PL, beq_OT_GH,
      beq_OT_PL, beq_PL_GH, beq_PL_OT, beq_nat_12, beq_nat_13, beq_nat_14,
      beq_nat_21, beq_nat_23, beq_nat_24, beq_nat_31, beq_nat_32, beq_nat_34,
      ne_GH_OT, ne_GH_PL, ne_OT_GH, ne_OT_PL, ne_PL_GH, ne_PL_OT]
  have h3 : (({ engC1 with
      race_time := 100,
      cars := [("GH", { carGH with current_lap := 2, last_lap_time := 100 }),
               ("OT", { carOT with current_lap := 2, last_lap_time := 100,
                                   tire_age := 1, position := 2 }),
               ("PL", { carPLf with position := 3, gap_to_leader := -100 })],
      cumulative_times := [("GH", 100), ("OT", 100), ("PL", 0)] } : Engine).update 50) =
      { engC1 with
        race_time := 150,
        cars := [("GH", { carGH with current_lap := 2, last_lap_time := 100,
                                     finished := true, position := 2 }),
                 ("OT", { carOT with current_lap := 2, lap_progress := 1/2,
                                     last_lap_time := 100, tire_age := 1 }),
                 ("PL", { carPLf with position := 3, gap_to_leader := -100 })],
        cumulative_times := [("GH", 100), ("OT", 100), ("PL", 0)] } := by
    norm_num [engC1, carGH, carOT, carPLf, ddGH, ddOT, ddW, lapG1, lapW1, lapW2, lapW3,
      weather0, thePhysicsModel, Engine.update, Engine.updateCar, Engine.updGhost,
      Engine.updPlayer, Engine.recalculate_positions, standingsEntry, assignCar, rankOf,
      stableSort, insSorted, standingsLE, _get_lap_data, _sync_track_position,
      alookup, alookupD, pyInt, List.find?, beq_GH_OT, beq_GH_PL, beq_OT_GH,
      beq_OT_PL, beq_PL_GH, beq_PL_OT, beq_nat_12, beq_nat_13, beq_nat_14,
      beq_nat_21, beq_nat_23, beq_nat_24, beq_nat_31, beq_nat_32, beq_nat_34,
      ne_GH_OT, ne_GH_PL, ne_OT_GH, ne_OT_PL, ne_PL_GH, ne_PL_OT]
  rw [h1, h2, h3]
  norm_num [alookup, List.find?, carGH, carOT, beq_GH_OT, beq_GH_PL, beq_OT_GH,
    beq_OT_PL, beq_PL_GH, beq_PL_OT]

/-! ### C2 counterexample -/

set_option maxHeartbeats 2000000 in
/-- C2 counterexample: a freshly constructed two-car engine after a single
unpaused `update(1)`: no car has completed a lap, both cumulative times are
still `0`, so BOTH cars have `gap_to_leader = 0` — not exactly one. -/
theorem C2_counterexample_not_exactly_one_zero_gap :
    ∃ a b, alookup (engC2.update 1).cars "A" = some a ∧
      alookup (engC2.update 1).cars "B" = some b ∧
      a.gap_to_leader = 0 ∧ b.gap_to_leader = 0 ∧
      (engC2.update 1).cars.length = 2 := by
  norm_num [engC2, mkEngine, _init_car, ddA, ddB, lapW1, lapW2, lapW3, weather0,
    thePhysicsModel, Engine.update, Engine.updateCar, Engine.updGhost,
    Engine.updPlayer, Engine.recalculate_positions, standingsEntry, assignCar,
    rankOf, stableSort, insSorted, standingsLE, _get_lap_data,
    _sync_track_position, WeatherSystem.get_current_weather, alookup, alookupD,
    pyInt, List.find?, calculate_pace_factor, calculate_tire_wear,
    TIRE_WEAR_RATES, COMPOUND_PACE_DELTA, MODE_WEAR, MODE_PACE, pyUpper_SOFT,
    beq_A_B, beq_B_A, ne_A_B, ne_B_A, max_def, beq_nat_12, beq_nat_13,
    ne_NORMAL_PUSH, ne_NORMAL_CONSERVE, ne_SOFT_INTERMEDIATE, ne_SOFT_WET,
    ne_SOFT_MEDIUM, ne_SOFT_HARD, ne_SOFT_SLICK]

/-! ### C2 amended: general ranking structure -/

theorem insSorted_perm {α : Type} (le : α → α → Bool) (x : α) (l : List α) :
    (insSorted le x l).Perm (x :: l) := by
  induction l with
  | nil => exact List.Perm.refl _
  | cons y ys ih =>
    unfold insSorted
    split
    · exact List.Perm.refl _
    · exact ((ih.cons y).trans (List.Perm.swap x y ys))

theorem stableSort_perm {α : Type} (le : α → α → Bool) (l : List α) :
    (stableSort le l).Perm l := by
  induction l with
  | nil => exact List.Perm.refl _
  | cons x xs ih => exact (insSorted_perm le x (stableSort le xs)).trans (ih.cons x)

theorem rankOf_cons (a : String × ℚ × ℚ) (s : List (String × ℚ × ℚ))
    (k : String) (i : ℕ) :
    rankOf (a :: s) k i = if a.1 = k then some (i, a.2.2) else rankOf s k (i + 1) := rfl

theorem rankOf_isSome (s : List (String × ℚ × ℚ)) (k : String) (i : ℕ)
    (hk : k ∈ s.map (fun q => q.1)) : ∃ it, rankOf s k i = some it := by
  induction s generalizing i with
  | nil => simp at hk
  | cons a s ih =>
    unfold rankOf
    by_cases h : a.1 = k
    · exact ⟨_, by rw [if_pos h]⟩
    · simp only [List.map_cons, List.mem_cons] at hk
      rcases hk with hk | hk
      · exact absurd hk.symm h
      · rw [if_neg h]; exact ih (i + 1) hk

theorem assignCar_position (s : List (String × ℚ × ℚ)) (lt : ℚ) (k : String)
    (c : CarState) :
    (assignCar s lt k c).position =
      (match rankOf s k 0 with | some it => it.1 + 1 | none => c.position) := by
  unfold assignCar
  split <;> simp_all

/-- The positions handed out over the keys of a key-`Nodup` standings list
are exactly `i+1, …, i+length`. -/
theorem rankOf_self_ranks (s : List (String × ℚ × ℚ))
    (hnd : (s.map (fun q => q.1)).Nodup) (i : ℕ) :
    (s.map (fun q => q.1)).map
        (fun k => match rankOf s k i with | some it => it.1 + 1 | none => 0) =
      List.range' (i + 1) s.length := by
  induction s generalizing i with
  | nil => rfl
  | cons a s ih =>
    simp only [List.map_cons, List.length_cons]
    have hhead : rankOf (a :: s) a.1 i = some (i, a.2.2) := by
      rw [rankOf_cons, if_pos rfl]
    have hnotin : a.1 ∉ s.map (fun q => q.1) := by
      simp only [List.map_cons, List.nodup_cons] at hnd
      exact hnd.1
    have hnd' : (s.map (fun q => q.1)).Nodup := by
      simp only [List.map_cons, List.nodup_cons] at hnd
      exact hnd.2
    have htail : (s.map (fun q => q.1)).map
        (fun k => match rankOf (a :: s) k i with | some it => it.1 + 1 | none => 0) =
        (s.map (fun q => q.1)).map
        (fun k => match rankOf s k (i + 1) with | some it => it.1 + 1 | none => 0) := by
      refine List.map_congr_left ?_
      intro k hk
      have hak : ¬ a.1 = k := fun h => hnotin (h ▸ hk)
      rw [rankOf_cons, if_neg hak]
    rw [hhead, htail, ih hnd' (i + 1)]
    rfl

/-- Core of C2 (amended): after `_recalculate_positions` on key-distinct
cars, the `position` fields are a permutation of `1..N`. -/
theorem recalc_positions_perm (e : Engine)
    (hnd : (e.cars.map (fun p => p.1)).Nodup) :
    ((e.recalculate_positions).cars.map (fun p => p.2.position)).Perm
      (List.range' 1 e.cars.length) := by
  simp only [Engine.recalculate_positions]
  set cums := e.cumulative_times with hcums
  set standings := e.cars.map (standingsEntry cums) with hstandings
  set sorted := stableSort standingsLE standings with hsorted
  set lt := (match sorted with | [] => (0:ℚ) | s :: _ => s.2.2) with hlt
  have hskeys : standings.map (fun q => q.1) = e.cars.map (fun p => p.1) := by
    rw [hstandings, List.map_map]
    rfl
  have hperm : (sorted.map (fun q => q.1)).Perm (e.cars.map (fun p => p.1)) := by
    rw [← hskeys]
    exact (stableSort_perm standingsLE standings).map _
  have hsnd : (sorted.map (fun q => q.1)).Nodup := hperm.nodup_iff.mpr hnd
  have hlen : sorted.length = e.cars.length := by
    have h1 := (stableSort_perm standingsLE standings).length_eq
    have h2 : standings.length = e.cars.length := by rw [hstandings, List.length_map]
    rw [← hsorted] at h1
    omega
  have hmap1 : (e.cars.map (fun p => (p.1, assignCar sorted lt p.1 p.2))).map
      (fun p => p.2.position) =
      (e.cars.map (fun p => p.1)).map
        (fun k => match rankOf sorted k 0 with | some it => it.1 + 1 | none => 0) := by
    simp only [List.map_map]
    refine List.map_congr_left ?_
    intro p hp
    simp only [Function.comp_apply, assignCar_position]
    have hk : p.1 ∈ sorted.map (fun q => q.1) := by
      rw [hperm.mem_iff]
      exact List.mem_map_of_mem _ hp
    obtain ⟨it, hit⟩ := rankOf_isSome sorted p.1 0 hk
    rw [hit]
  rw [hmap1]
  have hB := rankOf_self_ranks sorted hsnd 0
  have hA : ((e.cars.map (fun p => p.1)).map
      (fun k => match rankOf sorted k 0 with | some it => it.1 + 1 | none => 0)).Perm
      ((sorted.map (fun q => q.1)).map
      (fun k => match rankOf sorted k 0 with | some it => it.1 + 1 | none => 0)) :=
    (hperm.symm).map _
  rw [hB, hlen] at hA
  exact hA

/-- Core of C2 (amended): the post-sort first car gets `position = 1` and
`gap_to_leader = 0`. -/
theorem recalc_leader_gap_zero (e : Engine) (hne : e.cars ≠ []) :
    ∃ p ∈ (e.recalculate_positions).cars, p.2.position = 1 ∧ p.2.gap_to_leader = 0 := by
  simp only [Engine.recalculate_positions]
  generalize hs :
    stableSort standingsLE (List.map (standingsEntry e.cumulative_times) e.cars) = sorted
  have hperm : (sorted.map (fun q => q.1)).Perm (e.cars.map (fun p => p.1)) := by
    rw [← hs]
    have hskeys : (List.map (standingsEntry e.cumulative_times) e.cars).map (fun q => q.1)
        = e.cars.map (fun p => p.1) := by
      rw [List.map_map]; rfl
    rw [← hskeys]
    exact (stableSort_perm standingsLE _).map _
  rcases sorted with _ | ⟨s0, rest⟩
  · exfalso
    apply hne
    have hlen := hperm.length_eq
    simp only [List.map_nil, List.length_nil, List.length_map] at hlen
    exact List.length_eq_zero.mp hlen.symm
  · have hk : s0.1 ∈ e.cars.map (fun p => p.1) := by
      rw [← hperm.mem_iff]
      exact List.mem_cons_self _ _
    obtain ⟨p, hp, hp1⟩ := List.mem_map.mp hk
    refine ⟨(p.1, assignCar (s0 :: rest) s0.2.2 p.1 p.2),
      List.mem_map_of_mem _ hp, ?_, ?_⟩
    · show (assignCar (s0 :: rest) s0.2.2 p.1 p.2).position = 1
      rw [assignCar, hp1, rankOf_cons, if_pos rfl]
    · show (assignCar (s0 :: rest) s0.2.2 p.1 p.2).gap_to_leader = 0
      rw [assignCar, hp1, rankOf_cons, if_pos rfl]
      simp

/-- Decomposition of one unpaused `update`: there is an intermediate engine
(after the per-car stepping) whose recalculated, resynced cars are the
result, with the key list unchanged. -/
theorem update_cars_eq (e : Engine) (dt : ℚ) (hp : e.paused = false) :
    ∃ e2 : Engine, e.update dt =
      { e2.recalculate_positions with
        cars := (e2.recalculate_positions).cars.map
          (fun p => (p.1, _sync_track_position e.reference_telemetry p.2)) } ∧
      e2.cars.map (fun p => p.1) = e.cars.map (fun p => p.1) ∧
      e2.cars.length = e.cars.length := by
  refine ⟨{ e with
            race_time := e.race_time + dt,
            cars := (e.cars.map (fun p =>
              (p.1, Engine.updateCar { e with race_time := e.race_time + dt } dt p.2
                (alookupD e.cumulative_times p.1 0)))).map (fun p => (p.1, p.2.1)),
            cumulative_times := (e.cars.map (fun p =>
              (p.1, Engine.updateCar { e with race_time := e.race_time + dt } dt p.2
                (alookupD e.cumulative_times p.1 0)))).map (fun p => (p.1, p.2.2)) },
    ?_, ?_, ?_⟩
  · simp only [Engine.update, hp, Bool.false_eq_true, if_false]
    rfl
  · rw [List.map_map, List.map_map]
    rfl
  · rw [List.map_map, List.length_map]

/-- C2 (amended): after every unpaused `update(dt)` on an engine with
key-distinct, nonempty cars, the `position` fields form a contiguous `1..N`
permutation, and the rank-1 (post-sort first) car has `gap_to_leader = 0`.
The original claim's "exactly one car has `gap_to_leader = 0`" fails: ties in
cumulative time (e.g. before any lap completes) give several cars gap `0`. -/
theorem C2_amended_positions_perm_and_leader_gap_zero (e : Engine) (dt : ℚ)
    (hnd : (e.cars.map (fun p => p.1)).Nodup) (hne : e.cars ≠ [])
    (hp : e.paused = false) :
    (((e.update dt).cars.map (fun p => p.2.position)).Perm
      (List.range' 1 e.cars.length)) ∧
    ∃ p ∈ (e.update dt).cars, p.2.position = 1 ∧ p.2.gap_to_leader = 0 := by
  obtain ⟨e2, hupd, hkeys, hlen⟩ := update_cars_eq e dt hp
  have hnd2 : (e2.cars.map (fun p => p.1)).Nodup := by rw [hkeys]; exact hnd
  have hne2 : e2.cars ≠ [] := by
    intro h
    apply hne
    have : e.cars.length = 0 := by rw [← hlen, h]; rfl
    exact List.length_eq_zero.mp this
  constructor
  · rw [hupd]
    show ((((e2.recalculate_positions).cars.map
      (fun p => (p.1, _sync_track_position e.reference_telemetry p.2))).map
        (fun p => p.2.position)).Perm (List.range' 1 e.cars.length))
    rw [List.map_map]
    have hcong : (e2.recalculate_positions).cars.map
        ((fun p => p.2.position) ∘
          (fun p => ((p.1, _sync_track_position e.reference_telemetry p.2) :
            String × CarState))) =
        (e2.recalculate_positions).cars.map (fun p => p.2.position) := by
      refine List.map_congr_left ?_
      intro p _
      simp [sync_position]
    rw [hcong, ← hlen]
    exact recalc_positions_perm e2 hnd2
  · obtain ⟨p, hpmem, hppos, hpgap⟩ := recalc_leader_gap_zero e2 hne2
    refine ⟨(p.1, _sync_track_position e.reference_telemetry p.2), ?_, ?_, ?_⟩
    · rw [hupd]
      exact List.mem_map_of_mem _ hpmem
    · show (_sync_track_position e.reference_telemetry p.2).position = 1
      rw [sync_position]
      exact hppos
    · show (_sync_track_position e.reference_telemetry p.2).gap_to_leader = 0
      rw [sync_gap_to_leader]
      exact hpgap

/-- C2 amended-claim witness at the concrete two-car engine. -/
theorem C2_amended_witness :
    (((engC2.update 1).cars.map (fun p => p.2.position)).Perm
      (List.range' 1 engC2.cars.length)) ∧
    ∃ p ∈ (engC2.update 1).cars, p.2.position = 1 ∧ p.2.gap_to_leader = 0 :=
  C2_amended_positions_perm_and_leader_gap_zero engC2 1
    (by simp [engC2, mkEngine, _init_car, ddA, ddB])
    (by simp [engC2, mkEngine, _init_car]) rfl

/-! ### C5: the pit flags are never both set -/

theorem sync_in_pit (track : List (ℚ × ℚ)) (car : CarState) :
    (_sync_track_position track car).in_pit = car.in_pit := by
  obtain ⟨x, y, h⟩ := sync_eq track car; rw [h]

theorem sync_pit_requested (track : List (ℚ × ℚ)) (car : CarState) :
    (_sync_track_position track car).pit_requested = car.pit_requested := by
  obtain ⟨x, y, h⟩ := sync_eq track car; rw [h]

theorem sync_tire_wear (track : List (ℚ × ℚ)) (car : CarState) :
    (_sync_track_position track car).tire_wear = car.tire_wear := by
  obtain ⟨x, y, h⟩ := sync_eq track car; rw [h]

theorem assignCar_in_pit (s : List (String × ℚ × ℚ)) (lt : ℚ) (k : String)
    (c : CarState) : (assignCar s lt k c).in_pit = c.in_pit := by
  obtain ⟨pos, gap, h⟩ := assignCar_eq s lt k c; rw [h]

theorem assignCar_pit_requested (s : List (String × ℚ × ℚ)) (lt : ℚ) (k : String)
    (c : CarState) : (assignCar s lt k c).pit_requested = c.pit_requested := by
  obtain ⟨pos, gap, h⟩ := assignCar_eq s lt k c; rw [h]

theorem assignCar_tire_wear (s : List (String × ℚ × ℚ)) (lt : ℚ) (k : String)
    (c : CarState) : (assignCar s lt k c).tire_wear = c.tire_wear := by
  obtain ⟨pos, gap, h⟩ := assignCar_eq s lt k c; rw [h]

/-- `_update_ghost` never touches the pit flags or the tire wear. -/
theorem updGhost_pit_fields (e : Engine) (car : CarState) (dt cum : ℚ) :
    (e.updGhost car dt cum).1.in_pit = car.in_pit ∧
    (e.updGhost car dt cum).1.pit_requested = car.pit_requested ∧
    (e.updGhost car dt cum).1.tire_wear = car.tire_wear := by
  simp only [Engine.updGhost]
  repeat' split
  all_goals exact ⟨rfl, rfl, rfl⟩

/-- `_update_player` preserves the mutual exclusion of `pit_requested` and
`in_pit`. -/
theorem updPlayer_pit_inv (e : Engine) (car : CarState) (dt cum : ℚ)
    (h : ¬(car.pit_requested = true ∧ car.in_pit = true)) :
    ¬((e.updPlayer car dt cum).1.pit_requested = true ∧
      (e.updPlayer car dt cum).1.in_pit = true) := by
  simp only [Engine.updPlayer]
  repeat' split
  all_goals simp_all

theorem updateCar_pit_inv (e : Engine) (car : CarState) (dt cum : ℚ)
    (h : ¬(car.pit_requested = true ∧ car.in_pit = true)) :
    ¬((e.updateCar dt car cum).1.pit_requested = true ∧
      (e.updateCar dt car cum).1.in_pit = true) := by
  simp only [Engine.updateCar]
  split
  · exact h
  · split
    · exact updPlayer_pit_inv e car dt cum h
    · have hg := updGhost_pit_fields e car dt cum
      rw [hg.2.1, hg.1]
      exact h

theorem playerState_pit_inv (e : Engine) (h : PitInv e) :
    ¬(e.playerState.pit_requested = true ∧ e.playerState.in_pit = true) := by
  unfold Engine.playerState
  rcases hf : alookup e.cars e.player_driver with _ | c
  · intro hc
    simp [defaultCar] at hc
  · have hm := alookup_mem hf
    simpa using h _ hm

theorem setPlayer_pit_inv (e : Engine) (car : CarState)
    (hcar : ¬(car.pit_requested = true ∧ car.in_pit = true)) (h : PitInv e) :
    PitInv (e.setPlayer car) := by
  intro p hp
  simp only [Engine.setPlayer] at hp
  obtain ⟨q, hq, rfl⟩ := List.mem_map.mp hp
  by_cases hk : q.1 == e.player_driver
  · simpa [hk] using hcar
  · simp only [hk, Bool.false_eq_true, if_false]
    exact h q hq

theorem pitInv_update (e : Engine) (dt : ℚ) (h : PitInv e) : PitInv (e.update dt) := by
  unfold Engine.update
  split
  · exact h
  · intro p hp
    simp only [Engine.recalculate_positions, List.map_map, List.mem_map] at hp
    obtain ⟨q, hq, rfl⟩ := hp
    simp only [Function.comp_apply, sync_pit_requested, sync_in_pit,
      assignCar_pit_requested, assignCar_in_pit]
    exact updateCar_pit_inv _ q.2 dt _ (h q hq)

theorem pitInv_jump (e : Engine) (n : ℤ) (h : PitInv e) : PitInv (e.jump_to_lap n) := by
  intro p hp
  simp only [Engine.jump_to_lap, List.mem_map] at hp
  obtain ⟨q, hq, rfl⟩ := hp
  simp [Engine.jumpCar, sync_pit_requested, sync_in_pit]

theorem pitInv_applyOp (e : Engine) (op : Op) (h : PitInv e) :
    PitInv (e.applyOp op) := by
  cases op with
  | update dt => exact pitInv_update e dt h
  | set_mode m =>
    simp only [Engine.applyOp, Engine.set_mode]
    split
    · refine setPlayer_pit_inv e _ ?_ h
      simpa using playerState_pit_inv e h
    · exact h
  | request_pit c =>
    simp only [Engine.applyOp, Engine.request_pit]
    split
    · rename_i hguard
      refine setPlayer_pit_inv e _ ?_ h
      intro hc
      simp only [Bool.and_eq_true, Bool.not_eq_true'] at hguard
      simp_all
    · exact h
  | cancel_pit =>
    simp only [Engine.applyOp, Engine.cancel_pit]
    split
    · refine setPlayer_pit_inv e _ ?_ h
      simp
    · exact h
  | jump_to_lap n => exact pitInv_jump e n h
  | set_race_progress pr => exact pitInv_jump e _ h
  | toggle_pause => exact fun p hp => h p hp

theorem pitInv_mkEngine (rd : List (String × DriverRaceData))
    (tel : List (ℚ × ℚ)) (ph : PhysicsModel) (w : WeatherSystem) (pl : String)
    (tl : ℕ) : PitInv (mkEngine rd tel ph w pl tl) := by
  intro p hp
  simp only [mkEngine, List.mem_map] at hp
  obtain ⟨q, hq, rfl⟩ := hp
  simp [_init_car, sync_pit_requested, sync_in_pit]

theorem pitInv_foldl (e : Engine) (ops : List Op) (h : PitInv e) :
    PitInv (ops.foldl Engine.applyOp e) := by
  induction ops generalizing e with
  | nil => exact h
  | cons op ops ih => exact ih _ (pitInv_applyOp e op h)

/-- C5: starting from engine construction, after any interleaving of
`update`, `request_pit`, `cancel_pit`, `set_mode`, `jump_to_lap`,
`set_race_progress` and `toggle_pause` calls, no car ever has
`pit_requested` and `in_pit` simultaneously true. -/
theorem C5_pit_flags_mutually_exclusive (rd : List (String × DriverRaceData))
    (tel : List (ℚ × ℚ)) (ph : PhysicsModel) (w : WeatherSystem) (pl : String)
    (tl : ℕ) (ops : List Op) :
    ∀ p ∈ (ops.foldl Engine.applyOp (mkEngine rd tel ph w pl tl)).cars,
      ¬(p.2.pit_requested = true ∧ p.2.in_pit = true) :=
  pitInv_foldl _ ops (pitInv_mkEngine rd tel ph w pl tl)

/-- C5 witness: the freshly constructed concrete two-car engine, its first
car. -/
theorem C5_witness :
    ¬((_init_car [((0:ℚ), (0:ℚ))] "B" ("A", ddA)).2.pit_requested = true ∧
      (_init_car [((0:ℚ), (0:ℚ))] "B" ("A", ddA)).2.in_pit = true) :=
  C5_pit_flags_mutually_exclusive [("A", ddA), ("B", ddB)] [(0, 0)]
    thePhysicsModel weather0 "B" 3 [] (_init_car [(0, 0)] "B" ("A", ddA))
    (by simp [mkEngine])

/-! ### C4: tire wear bounded and monotone except pit reset -/

theorem TIRE_WEAR_RATES_pos (c : String) : 0 < TIRE_WEAR_RATES c := by
  unfold TIRE_WEAR_RATES
  split_ifs <;> norm_num

theorem MODE_WEAR_pos (m : String) : 0 < MODE_WEAR m := by
  unfold MODE_WEAR
  split_ifs <;> norm_num

theorem calculate_pace_factor_pos (c : String) (w : ℚ) (m : String) (r : ℚ) :
    0 < calculate_pace_factor c w m r := by
  unfold calculate_pace_factor
  exact lt_of_lt_of_le (by norm_num) (le_max_left _ _)

theorem calculate_tire_wear_nonneg (c : String) (w : ℚ) (m : String)
    (hw : 0 ≤ w) : 0 ≤ calculate_tire_wear c w m := by
  unfold calculate_tire_wear
  have h1 := TIRE_WEAR_RATES_pos (pyUpper c)
  have h2 := MODE_WEAR_pos m
  have h3 : (0:ℚ) ≤ 1 + w * (15/10) := by linarith
  positivity

theorem wear_step_bounds (w inc : ℚ) (hw0 : 0 ≤ w) (hw1 : w ≤ 99/100)
    (hinc : 0 ≤ inc) :
    0 ≤ min (99/100 : ℚ) (w + inc) ∧ min (99/100 : ℚ) (w + inc) ≤ 99/100 ∧
      w ≤ min (99/100 : ℚ) (w + inc) :=
  ⟨le_min (by norm_num) (by linarith), min_le_left _ _, le_min hw1 (by linarith)⟩

/-- Per-step wear facts for `_update_player`: wear stays in `[0, 0.99]` and
never decreases except the pit-completion reset to exactly `0`. -/
theorem updPlayer_wear (e : Engine) (car : CarState) (dt cum : ℚ)
    (hphys : e.physics = thePhysicsModel) (hdt : 0 ≤ dt)
    (hw0 : 0 ≤ car.tire_wear) (hw1 : car.tire_wear ≤ 99/100)
    (hrd : ∀ l ∈ ((alookup e.race_data car.driver_code).getD defaultDriverData).laps,
      0 < l.lap_time_seconds) :
    (0 ≤ (e.updPlayer car dt cum).1.tire_wear ∧
      (e.updPlayer car dt cum).1.tire_wear ≤ 99/100) ∧
    (car.tire_wear ≤ (e.updPlayer car dt cum).1.tire_wear ∨
      ((e.updPlayer car dt cum).1.tire_wear = 0 ∧ car.in_pit = true ∧
        (e.updPlayer car dt cum).1.in_pit = false)) := by
  cases hpit : car.in_pit with
  | true =>
    simp only [Engine.updPlayer, hpit, if_true]
    split
    · exact ⟨⟨by norm_num, by norm_num⟩, Or.inr ⟨by trivial, by trivial, by trivial⟩⟩
    · exact ⟨⟨hw0, hw1⟩, Or.inl le_rfl⟩
  | false =>
    simp only [Engine.updPlayer, hpit, Bool.false_eq_true, if_false, hphys,
      thePhysicsModel]
    rcases hld : _get_lap_data ((alookup e.race_data car.driver_code).getD
        defaultDriverData) car.current_lap with _ | ld
    · exact ⟨⟨hw0, hw1⟩, Or.inl le_rfl⟩
    · have hbase : 0 < ld.lap_time_seconds :=
        hrd ld (List.mem_of_find?_eq_some hld)
      have hpace := calculate_pace_factor_pos car.compound car.tire_wear car.mode
        (e.weather.get_current_weather e.race_time)
      have hmlt : 0 < ld.lap_time_seconds / calculate_pace_factor car.compound
          car.tire_wear car.mode (e.weather.get_current_weather e.race_time) :=
        div_pos hbase hpace
      have hinc : 0 ≤ calculate_tire_wear car.compound car.tire_wear car.mode *
          dt / (ld.lap_time_seconds / calculate_pace_factor car.compound
            car.tire_wear car.mode (e.weather.get_current_weather e.race_time)) :=
        div_nonneg (mul_nonneg
          (calculate_tire_wear_nonneg car.compound car.tire_wear car.mode hw0) hdt)
          hmlt.le
      have hb := wear_step_bounds car.tire_wear _ hw0 hw1 hinc
      dsimp only
      repeat' split
      all_goals dsimp only
      all_goals
        first
          | exact ⟨⟨hb.1, hb.2.1⟩, Or.inl hb.2.2⟩
          | exact ⟨⟨hw0, hw1⟩, Or.inl le_rfl⟩

theorem updateCar_wear (e : Engine) (car : CarState) (dt cum : ℚ)
    (hphys : e.physics = thePhysicsModel) (hdt : 0 ≤ dt)
    (hw0 : 0 ≤ car.tire_wear) (hw1 : car.tire_wear ≤ 99/100)
    (hrd : ∀ l ∈ ((alookup e.race_data car.driver_code).getD defaultDriverData).laps,
      0 < l.lap_time_seconds) :
    (0 ≤ (e.updateCar dt car cum).1.tire_wear ∧
      (e.updateCar dt car cum).1.tire_wear ≤ 99/100) ∧
    (car.tire_wear ≤ (e.updateCar dt car cum).1.tire_wear ∨
      ((e.updateCar dt car cum).1.tire_wear = 0 ∧ car.in_pit = true ∧
        (e.updateCar dt car cum).1.in_pit = false)) := by
  simp only [Engine.updateCar]
  split
  · exact ⟨⟨hw0, hw1⟩, Or.inl le_rfl⟩
  · split
    · exact updPlayer_wear e car dt cum hphys hdt hw0 hw1 hrd
    · have hg := updGhost_pit_fields e car dt cum
      rw [hg.2.2]
      exact ⟨⟨hw0, hw1⟩, Or.inl le_rfl⟩

theorem raceDataWF_lookup (rd : List (String × DriverRaceData)) (h : RaceDataWF rd)
    (code : String) :
    ∀ l ∈ ((alookup rd code).getD defaultDriverData).laps, 0 < l.lap_time_seconds := by
  rcases hl : alookup rd code with _ | dd
  · simp [defaultDriverData]
  · intro l hml
    exact h _ (alookup_mem hl) l hml

theorem update_constants (e : Engine) (dt : ℚ) :
    (e.update dt).race_data = e.race_data ∧ (e.update dt).physics = e.physics := by
  by_cases hp : e.paused = true
  · constructor <;>
      (unfold Engine.update; rw [if_pos hp])
  · constructor <;>
      (unfold Engine.update; rw [if_neg hp]; rfl)

theorem setPlayer_constants (e : Engine) (car : CarState) :
    (e.setPlayer car).race_data = e.race_data ∧
    (e.setPlayer car).physics = e.physics := ⟨rfl, rfl⟩

theorem applyOp_constants (e : Engine) (op : Op) :
    (e.applyOp op).race_data = e.race_data ∧ (e.applyOp op).physics = e.physics := by
  cases op with
  | update dt => exact update_constants e dt
  | set_mode m =>
    simp only [Engine.applyOp, Engine.set_mode]
    by_cases hc : m = "PUSH" ∨ m = "NORMAL" ∨ m = "CONSERVE"
    · rw [if_pos hc]
      exact setPlayer_constants e _
    · rw [if_neg hc]
      exact ⟨rfl, rfl⟩
  | request_pit c =>
    simp only [Engine.applyOp, Engine.request_pit]
    by_cases hc : (!e.playerState.in_pit && !e.playerState.pit_requested) = true
    · rw [if_pos hc]
      exact setPlayer_constants e _
    · rw [if_neg hc]
      exact ⟨rfl, rfl⟩
  | cancel_pit =>
    simp only [Engine.applyOp, Engine.cancel_pit]
    by_cases hc : (e.playerState.pit_requested && !e.playerState.in_pit) = true
    · rw [if_pos hc]
      exact setPlayer_constants e _
    · rw [if_neg hc]
      exact ⟨rfl, rfl⟩
  | jump_to_lap n => exact ⟨rfl, rfl⟩
  | set_race_progress p => exact ⟨rfl, rfl⟩
  | toggle_pause => exact ⟨rfl, rfl⟩

theorem playerState_wear (e : Engine) (h : WearInv e) :
    0 ≤ e.playerState.tire_wear ∧ e.playerState.tire_wear ≤ 99/100 := by
  unfold Engine.playerState
  rcases hf : alookup e.cars e.player_driver with _ | c
  · exact ⟨by norm_num [defaultCar], by norm_num [defaultCar]⟩
  · exact h _ (alookup_mem hf)

theorem wearInv_setPlayer (e : Engine) (car : CarState)
    (hcar : 0 ≤ car.tire_wear ∧ car.tire_wear ≤ 99/100) (h : WearInv e) :
    WearInv (e.setPlayer car) := by
  intro p hp
  simp only [Engine.setPlayer] at hp
  obtain ⟨q, hq, rfl⟩ := List.mem_map.mp hp
  by_cases hk : q.1 == e.player_driver
  · simpa [hk] using hcar
  · simp only [hk, Bool.false_eq_true, if_false]
    exact h q hq

theorem jumpCar_tire_wear (e : Engine) (t : ℕ) (k : String) (c : CarState) :
    (e.jumpCar t k c).tire_wear = c.tire_wear := by
  simp only [Engine.jumpCar, sync_tire_wear]
  split <;> rfl

theorem wearInv_jump (e : Engine) (n : ℤ) (h : WearInv e) :
    WearInv (e.jump_to_lap n) := by
  intro p hp
  simp only [Engine.jump_to_lap, List.mem_map] at hp
  obtain ⟨q, hq, rfl⟩ := hp
  simp only [jumpCar_tire_wear]
  exact h q hq

theorem wearInv_update (e : Engine) (dt : ℚ) (hphys : e.physics = thePhysicsModel)
    (hrd : RaceDataWF e.race_data) (hdt : 0 ≤ dt) (h : WearInv e) :
    WearInv (e.update dt) := by
  unfold Engine.update
  split
  · exact h
  · intro p hp
    simp only [Engine.recalculate_positions, List.map_map, List.mem_map] at hp
    obtain ⟨q, hq, rfl⟩ := hp
    simp only [Function.comp_apply, sync_tire_wear, assignCar_tire_wear]
    exact (updateCar_wear { e with race_time := e.race_time + dt } q.2 dt
      (alookupD e.cumulative_times q.1 0) hphys hdt (h q hq).1 (h q hq).2
      (raceDataWF_lookup e.race_data hrd q.2.driver_code)).1

theorem wearMono_refl (e : Engine) : WearMonoStep e e := by
  intro k c c2 hc hc2
  rw [hc] at hc2
  cases hc2
  exact Or.inl le_rfl

theorem wearMono_setPlayer (e : Engine) (car : CarState)
    (hcar : car.tire_wear = e.playerState.tire_wear) :
    WearMonoStep e (e.setPlayer car) := by
  intro k c c2 hc hc2
  left
  simp only [Engine.setPlayer] at hc2
  rw [alookup_map_keyfix, hc] at hc2
  simp only [Option.map_some'] at hc2
  cases hc2
  by_cases hk : (k == e.player_driver) = true
  · rw [if_pos hk]
    have hkpd : k = e.player_driver := by simpa using hk
    have hps : e.playerState = c := by
      unfold Engine.playerState
      rw [← hkpd, hc]
      rfl
    rw [hcar, hps]
  · rw [if_neg hk]

theorem wearMono_jump (e : Engine) (n : ℤ) : WearMonoStep e (e.jump_to_lap n) := by
  intro k c c2 hc hc2
  left
  simp only [Engine.jump_to_lap] at hc2
  rw [alookup_map_keyfix, hc] at hc2
  simp only [Option.map_some'] at hc2
  cases hc2
  rw [jumpCar_tire_wear]

theorem wearMono_update (e : Engine) (dt : ℚ) (hphys : e.physics = thePhysicsModel)
    (hrd : RaceDataWF e.race_data) (hdt : 0 ≤ dt) (h : WearInv e) :
    WearMonoStep e (e.update dt) := by
  intro k c c2 hc hc2
  cases hpaused : e.paused with
  | true =>
    unfold Engine.update at hc2
    rw [if_pos hpaused, hc] at hc2
    cases hc2
    exact Or.inl le_rfl
  | false =>
    obtain ⟨car2, hlook, heq, hcum⟩ := update_lookup e dt k c hpaused hc
    rw [hlook] at hc2
    cases hc2
    have hw := heq.2.2.2.2.2.2.2.2.2.1
    have hip := heq.2.2.2.2.2.2.2.2.2.2.1
    have hq := h _ (alookup_mem hc)
    have hstep := updateCar_wear { e with race_time := e.race_time + dt } c dt
      (alookupD e.cumulative_times k 0) hphys hdt hq.1 hq.2
      (raceDataWF_lookup _ hrd _)
    rcases hstep.2 with hm | hm
    · exact Or.inl (by rw [hw]; exact hm)
    · exact Or.inr ⟨by rw [hw]; exact hm.1, hm.2.1, by rw [hip]; exact hm.2.2⟩

theorem applyOp_wear (e : Engine) (op : Op) (hphys : e.physics = thePhysicsModel)
    (hrd : RaceDataWF e.race_data) (hop : OpWF op) (h : WearInv e) :
    WearInv (e.applyOp op) ∧ WearMonoStep e (e.applyOp op) := by
  cases op with
  | update dt =>
    exact ⟨wearInv_update e dt hphys hrd hop h, wearMono_update e dt hphys hrd hop h⟩
  | set_mode m =>
    simp only [Engine.applyOp, Engine.set_mode]
    split
    · exact ⟨wearInv_setPlayer e _ (playerState_wear e h) h,
        wearMono_setPlayer e _ rfl⟩
    · exact ⟨h, wearMono_refl e⟩
  | request_pit c =>
    simp only [Engine.applyOp, Engine.request_pit]
    split
    · exact ⟨wearInv_setPlayer e _ (playerState_wear e h) h,
        wearMono_setPlayer e _ rfl⟩
    · exact ⟨h, wearMono_refl e⟩
  | cancel_pit =>
    simp only [Engine.applyOp, Engine.cancel_pit]
    split
    · exact ⟨wearInv_setPlayer e _ (playerState_wear e h) h,
        wearMono_setPlayer e _ rfl⟩
    · exact ⟨h, wearMono_refl e⟩
  | jump_to_lap n => exact ⟨wearInv_jump e n h, wearMono_jump e n⟩
  | set_race_progress p => exact ⟨wearInv_jump e _ h, wearMono_jump e _⟩
  | toggle_pause => exact ⟨fun p hp => h p hp, wearMono_refl e⟩

theorem constants_foldl (e : Engine) (ops : List Op) :
    (ops.foldl Engine.applyOp e).race_data = e.race_data ∧
    (ops.foldl Engine.applyOp e).physics = e.physics := by
  induction ops generalizing e with
  | nil => exact ⟨rfl, rfl⟩
  | cons op ops ih =>
    have h1 := applyOp_constants e op
    have h2 := ih (e.applyOp op)
    exact ⟨h2.1.trans h1.1, h2.2.trans h1.2⟩

theorem wearInv_foldl (e : Engine) (ops : List Op)
    (hphys : e.physics = thePhysicsModel) (hrd : RaceDataWF e.race_data)
    (hops : ∀ o ∈ ops, OpWF o) (h : WearInv e) :
    WearInv (ops.foldl Engine.applyOp e) := by
  induction ops generalizing e with
  | nil => exact h
  | cons op ops ih =>
    have hc := applyOp_constants e op
    exact ih (e.applyOp op) (by rw [hc.2]; exact hphys) (by rw [hc.1]; exact hrd)
      (fun o ho => hops o (List.mem_cons_of_mem op ho))
      (applyOp_wear e op hphys hrd (hops op (List.mem_cons_self op ops)) h).1

theorem wearInv_mkEngine (rd : List (String × DriverRaceData)) (tel : List (ℚ × ℚ))
    (ph : PhysicsModel) (w : WeatherSystem) (pl : String) (tl : ℕ) :
    WearInv (mkEngine rd tel ph w pl tl) := by
  intro p hp
  simp only [mkEngine, List.mem_map] at hp
  obtain ⟨q, hq, rfl⟩ := hp
  constructor <;> norm_num [_init_car, sync_tire_wear]

set_option maxHeartbeats 800000 in
/-- C4: from engine construction, along any well-formed interleaving of
`update(dt)` calls (`dt ≥ 0`) and player actions, every car's tire wear
stays within `[0, 0.99]`, and across each step it never decreases except
when a completed pit stop resets it to exactly `0.0`. -/
theorem C4_tire_wear_bounded_and_monotone (rd : List (String × DriverRaceData))
    (tel : List (ℚ × ℚ)) (w : WeatherSystem) (pl : String) (tl : ℕ)
    (ops : List Op) (op : Op) (hrd : RaceDataWF rd) (hops : ∀ o ∈ ops, OpWF o)
    (hop : OpWF op) :
    (∀ p ∈ ((ops.foldl Engine.applyOp
        (mkEngine rd tel thePhysicsModel w pl tl)).applyOp op).cars,
      0 ≤ p.2.tire_wear ∧ p.2.tire_wear ≤ 99/100) ∧
    WearMonoStep (ops.foldl Engine.applyOp (mkEngine rd tel thePhysicsModel w pl tl))
      ((ops.foldl Engine.applyOp (mkEngine rd tel thePhysicsModel w pl tl)).applyOp op) := by
  have hconst := constants_foldl (mkEngine rd tel thePhysicsModel w pl tl) ops
  have hphys_s : (ops.foldl Engine.applyOp
      (mkEngine rd tel thePhysicsModel w pl tl)).physics = thePhysicsModel := hconst.2
  have hrd_s : RaceDataWF (ops.foldl Engine.applyOp
      (mkEngine rd tel thePhysicsModel w pl tl)).race_data := by
    rw [hconst.1]
    exact hrd
  have hinv_s := wearInv_foldl (mkEngine rd tel thePhysicsModel w pl tl) ops rfl hrd
    hops (wearInv_mkEngine rd tel thePhysicsModel w pl tl)
  exact applyOp_wear _ op hphys_s hrd_s hop hinv_s

/-- C4 witness: the concrete single-driver engine, no prior ops, one
`update(1)` step. -/
theorem C4_witness :
    (∀ p ∈ (([] : List Op).foldl Engine.applyOp
        (mkEngine [("A", ddA)] [(0, 0)] thePhysicsModel weather0 "A" 3)
          |>.applyOp (Op.update 1)).cars,
      0 ≤ p.2.tire_wear ∧ p.2.tire_wear ≤ 99/100) ∧
    WearMonoStep (([] : List Op).foldl Engine.applyOp
        (mkEngine [("A", ddA)] [(0, 0)] thePhysicsModel weather0 "A" 3))
      ((([] : List Op).foldl Engine.applyOp
        (mkEngine [("A", ddA)] [(0, 0)] thePhysicsModel weather0 "A" 3)).applyOp
          (Op.update 1)) :=
  C4_tire_wear_bounded_and_monotone [("A", ddA)] [(0, 0)] weather0 "A" 3 []
    (Op.update 1)
    (by
      intro q hq l hl
      simp only [List.mem_singleton] at hq
      subst hq
      simp only [ddA, List.mem_cons, List.not_mem_nil, or_false] at hl
      rcases hl with rfl | rfl | rfl <;> norm_num [lapW1, lapW2, lapW3])
    (by intro o ho; exact absurd ho (List.not_mem_nil o))
    (by norm_num [OpWF])

/-! ### C8: ghost cars are independent of physics and weather -/

theorem ghostObsEq_refl (c : CarState) : GhostObsEq c c :=
  ⟨rfl, rfl, rfl, rfl, rfl, rfl, rfl, rfl⟩

theorem ghostObsEq_symm {a b : CarState} (h : GhostObsEq a b) : GhostObsEq b a := by
  obtain ⟨h1, h2, h3, h4, h5, h6, h7, h8⟩ := h
  exact ⟨h1.symm, h2.symm, h3.symm, h4.symm, h5.symm, h6.symm, h7.symm, h8.symm⟩

theorem ghostObsEq_trans {a b c : CarState} (h1 : GhostObsEq a b)
    (h2 : GhostObsEq b c) : GhostObsEq a c := by
  obtain ⟨a1, a2, a3, a4, a5, a6, a7, a8⟩ := h1
  obtain ⟨b1, b2, b3, b4, b5, b6, b7, b8⟩ := h2
  exact ⟨a1.trans b1, a2.trans b2, a3.trans b3, a4.trans b4, a5.trans b5,
    a6.trans b6, a7.trans b7, a8.trans b8⟩

theorem sync_ghostObs (track : List (ℚ × ℚ)) (car : CarState) :
    GhostObsEq (_sync_track_position track car) car := by
  obtain ⟨x, y, h⟩ := sync_eq track car
  rw [h]
  exact ⟨rfl, rfl, rfl, rfl, rfl, rfl, rfl, rfl⟩

theorem assignCar_ghostObs (s : List (String × ℚ × ℚ)) (lt : ℚ) (k : String)
    (c : CarState) : GhostObsEq (assignCar s lt k c) c := by
  obtain ⟨pos, gap, h⟩ := assignCar_eq s lt k c
  rw [h]
  exact ⟨rfl, rfl, rfl, rfl, rfl, rfl, rfl, rfl⟩

theorem sync_is_player (track : List (ℚ × ℚ)) (car : CarState) :
    (_sync_track_position track car).is_player = car.is_player := by
  obtain ⟨x, y, h⟩ := sync_eq track car; rw [h]

theorem assignCar_is_player (s : List (String × ℚ × ℚ)) (lt : ℚ) (k : String)
    (c : CarState) : (assignCar s lt k c).is_player = c.is_player := by
  obtain ⟨pos, gap, h⟩ := assignCar_eq s lt k c; rw [h]

theorem updGhost_is_player (e : Engine) (c : CarState) (dt cum : ℚ) :
    (e.updGhost c dt cum).1.is_player = c.is_player := by
  simp only [Engine.updGhost]
  repeat' split
  all_goals rfl

theorem updPlayer_is_player (e : Engine) (c : CarState) (dt cum : ℚ) :
    (e.updPlayer c dt cum).1.is_player = c.is_player := by
  simp only [Engine.updPlayer]
  repeat' split
  all_goals rfl

theorem updateCar_is_player (e : Engine) (c : CarState) (dt cum : ℚ) :
    (e.updateCar dt c cum).1.is_player = c.is_player := by
  simp only [Engine.updateCar]
  split
  · rfl
  · split
    · exact updPlayer_is_player e c dt cum
    · exact updGhost_is_player e c dt cum

/-- `_update_ghost` reads only the historical data, `dt`, and the
ghost-observable fields, so observationally equal ghosts stay
observationally equal — whatever the physics model, weather state, or
cumulative-time inputs of the two runs. -/
theorem updGhost_obs_congr (e1 e2 : Engine) (c1 c2 : CarState) (dt cum1 cum2 : ℚ)
    (hrd : e1.race_data = e2.race_data) (htl : e1.total_laps = e2.total_laps)
    (hobs : GhostObsEq c1 c2) :
    GhostObsEq (e1.updGhost c1 dt cum1).1 (e2.updGhost c2 dt cum2).1 := by
  obtain ⟨hdc, hcl, hlp, hcp, hta, hll, hfin, hdnf⟩ := hobs
  simp only [Engine.updGhost, hrd, hdc, hcl, hlp, hcp, hta, hll, hfin, hdnf, htl]
  repeat' split
  all_goals
    first
      | exact ⟨rfl, rfl, rfl, rfl, rfl, rfl, rfl, rfl⟩
      | simp_all

theorem updateCar_ghost_obs (e1 e2 : Engine) (dt : ℚ) (c1 c2 : CarState)
    (cum1 cum2 : ℚ) (hrd : e1.race_data = e2.race_data)
    (htl : e1.total_laps = e2.total_laps) (hg1 : c1.is_player = false)
    (hg2 : c2.is_player = false) (hobs : GhostObsEq c1 c2) :
    GhostObsEq (e1.updateCar dt c1 cum1).1 (e2.updateCar dt c2 cum2).1 := by
  obtain ⟨hdc, hcl, hlp, hcp, hta, hll, hfin, hdnf⟩ := hobs
  simp only [Engine.updateCar, hg1, hg2, hfin, hdnf, Bool.false_eq_true, if_false]
  by_cases hf : (c2.finished || c2.dnf) = true
  · rw [if_pos hf, if_pos hf]
    exact ⟨hdc, hcl, hlp, hcp, hta, hll, hfin, hdnf⟩
  · rw [if_neg hf, if_neg hf]
    exact updGhost_obs_congr e1 e2 c1 c2 dt cum1 cum2 hrd htl
      ⟨hdc, hcl, hlp, hcp, hta, hll, hfin, hdnf⟩

theorem update_misc (e : Engine) (dt : ℚ) :
    (e.update dt).total_laps = e.total_laps ∧ (e.update dt).paused = e.paused ∧
    (e.update dt).race_data = e.race_data := by
  by_cases hp : e.paused = true
  · unfold Engine.update; rw [if_pos hp]; exact ⟨rfl, rfl, rfl⟩
  · unfold Engine.update; rw [if_neg hp]; exact ⟨rfl, rfl, rfl⟩

theorem carsRel_map_generic (l1 l2 : List (String × CarState))
    (F G : String × CarState → String × CarState)
    (h : CarsRel l1 l2)
    (hFG : ∀ p q, p.1 = q.1 → p.2.is_player = q.2.is_player →
        (p.2.is_player = false → GhostObsEq p.2 q.2) →
        (F p).1 = (G q).1 ∧ (F p).2.is_player = (G q).2.is_player ∧
        ((F p).2.is_player = false → GhostObsEq (F p).2 (G q).2)) :
    CarsRel (l1.map F) (l2.map G) := by
  induction h with
  | nil => exact List.Forall₂.nil
  | cons hpq _ ih => exact List.Forall₂.cons (hFG _ _ hpq.1 hpq.2.1 hpq.2.2) ih

theorem carsRel_refl (l : List (String × CarState)) : CarsRel l l :=
  List.forall₂_same.mpr (fun a _ => ⟨rfl, rfl, fun _ => ghostObsEq_refl a.2⟩)

/-- One unpaused-or-paused tick with the same `dt` preserves the C8 engine
coupling: ghosts stay observationally equal whatever the two runs' physics
and weather. -/
theorem engRel_update (e1 e2 : Engine) (dt : ℚ) (h : EngRel e1 e2) :
    EngRel (e1.update dt) (e2.update dt) := by
  obtain ⟨hrd, htl, hps, hcars⟩ := h
  refine ⟨((update_misc e1 dt).2.2).trans (hrd.trans ((update_misc e2 dt).2.2).symm),
    ((update_misc e1 dt).1).trans (htl.trans ((update_misc e2 dt).1).symm),
    ((update_misc e1 dt).2.1).trans (hps.trans ((update_misc e2 dt).2.1).symm), ?_⟩
  by_cases hp : e1.paused = true
  · have hp2 : e2.paused = true := by rw [← hps]; exact hp
    have h1 : e1.update dt = e1 := by unfold Engine.update; rw [if_pos hp]
    have h2 : e2.update dt = e2 := by unfold Engine.update; rw [if_pos hp2]
    rw [h1, h2]; exact hcars
  · have hp2 : ¬ e2.paused = true := by rw [← hps]; exact hp
    show CarsRel (e1.update dt).cars (e2.update dt).cars
    unfold Engine.update
    rw [if_neg hp, if_neg hp2]
    simp only [Engine.recalculate_positions, List.map_map]
    refine carsRel_map_generic _ _ _ _ hcars ?_
    intro p q hk hip hobs
    dsimp only [Function.comp]
    refine ⟨hk, ?_, ?_⟩
    · rw [sync_is_player, assignCar_is_player, updateCar_is_player,
        sync_is_player, assignCar_is_player, updateCar_is_player]
      exact hip
    · intro hgp
      rw [sync_is_player, assignCar_is_player, updateCar_is_player] at hgp
      have hgq : q.2.is_player = false := by rw [← hip]; exact hgp
      exact ghostObsEq_trans (sync_ghostObs _ _)
        (ghostObsEq_trans (assignCar_ghostObs _ _ _ _)
          (ghostObsEq_trans
            (updateCar_ghost_obs { e1 with race_time := e1.race_time + dt }
              { e2 with race_time := e2.race_time + dt } dt p.2 q.2 _ _
              hrd htl hgp hgq (hobs hgp))
            (ghostObsEq_trans (ghostObsEq_symm (assignCar_ghostObs _ _ _ _))
              (ghostObsEq_symm (sync_ghostObs _ _)))))

theorem engRel_foldl (e1 e2 : Engine) (dts : List ℚ) (h : EngRel e1 e2) :
    EngRel (dts.foldl Engine.update e1) (dts.foldl Engine.update e2) := by
  induction dts generalizing e1 e2 with
  | nil => exact h
  | cons d rest ih => exact ih _ _ (engRel_update e1 e2 d h)

theorem carsRel_lookup (l1 l2 : List (String × CarState)) (h : CarsRel l1 l2)
    (k : String) (c1 c2 : CarState) (h1 : alookup l1 k = some c1)
    (h2 : alookup l2 k = some c2) (hg : c1.is_player = false) :
    GhostObsEq c1 c2 := by
  induction h with
  | nil => simp [alookup] at h1
  | @cons p q t1 t2 hpq htail ih =>
    rw [alookup_cons] at h1 h2
    by_cases hkey : p.1 = k
    · rw [if_pos hkey] at h1
      rw [if_pos (hpq.1 ▸ hkey)] at h2
      cases h1; cases h2
      exact hpq.2.2 hg
    · rw [if_neg hkey] at h1
      rw [if_neg (fun hc => hkey (hpq.1 ▸ hc))] at h2
      exact ih h1 h2

/-- C8: ghost cars are unaffected by the physics and weather models.  Two
runs of the same `update(dt)` sequence from the same initial engine,
differing only in the injected physics model and weather system, give every
non-player car identical `current_lap`, `lap_progress`, `compound`,
`tire_age`, `last_lap_time`, `finished` and `dnf`. -/
theorem C8_ghosts_unaffected_by_physics_and_weather (e : Engine)
    (p2 : PhysicsModel) (w2 : WeatherSystem) (dts : List ℚ) (k : String)
    (c1 c2 : CarState)
    (h1 : alookup (dts.foldl Engine.update e).cars k = some c1)
    (h2 : alookup (dts.foldl Engine.update
      { e with physics := p2, weather := w2 }).cars k = some c2)
    (hg : c1.is_player = false) :
    c1.current_lap = c2.current_lap ∧ c1.lap_progress = c2.lap_progress ∧
    c1.compound = c2.compound ∧ c1.tire_age = c2.tire_age ∧
    c1.last_lap_time = c2.last_lap_time ∧ c1.finished = c2.finished ∧
    c1.dnf = c2.dnf := by
  have h0 : EngRel e { e with physics := p2, weather := w2 } :=
    ⟨rfl, rfl, rfl, carsRel_refl e.cars⟩
  have hrel := engRel_foldl _ _ dts h0
  have hobs := carsRel_lookup _ _ hrel.2.2.2 k c1 c2 h1 h2 hg
  exact ⟨hobs.2.1, hobs.2.2.1, hobs.2.2.2.1, hobs.2.2.2.2.1, hobs.2.2.2.2.2.1,
    hobs.2.2.2.2.2.2.1, hobs.2.2.2.2.2.2.2⟩

set_option maxHeartbeats 2000000 in
/-- C8 witness: one `update(50)` tick on the three-car engine, against the
same engine with a constant physics model and monsoon sandbox weather
injected; ghost `OT` is found in both runs and its observables coincide. -/
theorem C8_witness :
    ∃ c1 c2,
      alookup ([(50:ℚ)].foldl Engine.update engC1).cars "OT" = some c1 ∧
      alookup ([(50:ℚ)].foldl Engine.update
        { engC1 with physics := altPhysics, weather := wetWeather }).cars "OT" =
        some c2 ∧
      c1.is_player = false ∧
      (c1.current_lap = c2.current_lap ∧ c1.lap_progress = c2.lap_progress ∧
       c1.compound = c2.compound ∧ c1.tire_age = c2.tire_age ∧
       c1.last_lap_time = c2.last_lap_time ∧ c1.finished = c2.finished ∧
       c1.dnf = c2.dnf) := by
  have heval1 : engC1.update 50 =
      { engC1 with
        race_time := 50,
        cars := [("GH", { carGH with lap_progress := 1/2 }),
                 ("OT", { carOT with lap_progress := 1/2, position := 2 }),
                 ("PL", { carPLf with position := 3 })] } := by
    norm_num [engC1, carGH, carOT, carPLf, ddGH, ddOT, ddW, lapG1, lapW1, lapW2, lapW3,
      weather0, thePhysicsModel, Engine.update, Engine.updateCar, Engine.updGhost,
      Engine.updPlayer, Engine.recalculate_positions, standingsEntry, assignCar, rankOf,
      stableSort, insSorted, standingsLE, _get_lap_data, _sync_track_position,
      alookup, alookupD, pyInt, List.find?, beq_GH_OT, beq_GH_PL, beq_OT_GH,
      beq_OT_PL, beq_PL_GH, beq_PL_OT, beq_nat_12, beq_nat_13, beq_nat_14,
      beq_nat_21, beq_nat_23, beq_nat_24, beq_nat_31, beq_nat_32, beq_nat_34,
      ne_GH_OT, ne_GH_PL, ne_OT_GH, ne_OT_PL, ne_PL_GH, ne_PL_OT]
  have heval2 : ({ engC1 with physics := altPhysics, weather := wetWeather } :
      Engine).update 50 =
      { engC1 with
        physics := altPhysics, weather := wetWeather,
        race_time := 50,
        cars := [("GH", { carGH with lap_progress := 1/2 }),
                 ("OT", { carOT with lap_progress := 1/2, position := 2 }),
                 ("PL", { carPLf with position := 3 })] } := by
    norm_num [engC1, carGH, carOT, carPLf, ddGH, ddOT, ddW, lapG1, lapW1, lapW2, lapW3,
      weather0, thePhysicsModel, Engine.update, Engine.updateCar, Engine.updGhost,
      Engine.updPlayer, Engine.recalculate_positions, standingsEntry, assignCar, rankOf,
      stableSort, insSorted, standingsLE, _get_lap_data, _sync_track_position,
      alookup, alookupD, pyInt, List.find?, beq_GH_OT, beq_GH_PL, beq_OT_GH,
      beq_OT_PL, beq_PL_GH, beq_PL_OT, beq_nat_12, beq_nat_13, beq_nat_14,
      beq_nat_21, beq_nat_23, beq_nat_24, beq_nat_31, beq_nat_32, beq_nat_34,
      ne_GH_OT, ne_GH_PL, ne_OT_GH, ne_OT_PL, ne_PL_GH, ne_PL_OT]
  have h1 : alookup ([(50:ℚ)].foldl Engine.update engC1).cars "OT" =
      some { carOT with lap_progress := 1/2, position := 2 } := by
    show alookup (engC1.update 50).cars "OT" = _
    rw [heval1]
    simp [alookup, List.find?]
  have h2 : alookup ([(50:ℚ)].foldl Engine.update
      { engC1 with physics := altPhysics, weather := wetWeather }).cars "OT" =
      some { carOT with lap_progress := 1/2, position := 2 } := by
    show alookup
      (({ engC1 with physics := altPhysics, weather := wetWeather } :
          Engine).update 50).cars "OT" = _
    rw [heval2]
    simp [alookup, List.find?]
  exact ⟨_, _, h1, h2, rfl,
    C8_ghosts_unaffected_by_physics_and_weather engC1 altPhysics wetWeather
      [(50:ℚ)] "OT" _ _ h1 h2 rfl⟩

end F1Sim
